import Mathlib

/-!
Shallow embedding of the Kantian-Neural-Dreams CAR pipeline: the four
layers of `src/extensions/car/layers.ts` (sensibility, understanding,
reason, critique), the pipeline entry points of `pipeline.ts`
(`carPipeline`, `checkEpistemicBoundaries`, `generateExplanation`), and
the blockchain ethics module (`evaluateBlockchainAction` and its
helpers).

Modelling conventions:
* JavaScript numbers are modelled as rationals (`ℚ`).
* JavaScript objects are modelled as structures whose fields are
  `Option`-typed; `none` models an absent/`undefined` field.
* JavaScript truthiness is modelled explicitly (`strTruthy`,
  `numTruthy`): `undefined`, `""` and `0` are falsy.
* A property access that throws a `TypeError` in JavaScript (reading a
  property of `null`/`undefined`) is modelled with `Except String`;
  all other code is total.
* `Date.now()` is modelled by an explicit `now : ℚ` argument threaded
  to the functions whose source calls it.
-/

/-- JavaScript truthiness of an optional string field
(`undefined` and the empty string are falsy). -/
def strTruthy : Option String → Bool
  | none => false
  | some s => s != ""

/-- JavaScript truthiness of an optional numeric field
(`undefined` and `0` are falsy). -/
def numTruthy : Option ℚ → Bool
  | none => false
  | some v => v != 0

/-- JavaScript `a || b` on two optional string fields: the first operand
if it is truthy, otherwise the second. -/
def jsOrStr (a b : Option String) : Option String :=
  if strTruthy a then a else b

/-- Read an optional string field the way JavaScript reads a field that
the surrounding code has already ensured is a string (absent reads as `""`). -/
def getStrD (o : Option String) : String := o.getD ""

/-- Read an optional numeric field, with `0` for an absent field. -/
def getNumD (o : Option ℚ) : ℚ := o.getD 0

/-- JavaScript `x > c` on an optional numeric field: comparing
`undefined` with a number is always false. -/
def numGt (x : Option ℚ) (c : ℚ) : Bool :=
  match x with
  | none => false
  | some v => decide (c < v)

/-- JavaScript `x < c` on an optional numeric field: comparing
`undefined` with a number is always false. -/
def numLt (x : Option ℚ) (c : ℚ) : Bool :=
  match x with
  | none => false
  | some v => decide (v < c)

/-- Substring occurrence on character lists (kernel-computable). -/
def jsIncludesL : List Char → List Char → Bool
  | [], pat => pat.isEmpty
  | s@(_ :: rest), pat => pat.isPrefixOf s || jsIncludesL rest pat

/-- JavaScript `String.prototype.includes`. -/
def jsIncludes (s pat : String) : Bool := jsIncludesL s.data pat.data

/-- JavaScript `String.prototype.startsWith`. -/
def jsStartsWith (s pat : String) : Bool := pat.data.isPrefixOf s.data

/-- ASCII lower-casing of one character. -/
def charToLower (c : Char) : Char :=
  if 65 ≤ c.toNat ∧ c.toNat ≤ 90 then Char.ofNat (c.toNat + 32) else c

/-- JavaScript `String.prototype.toLowerCase` (ASCII fragment). -/
def jsToLower (s : String) : String := ⟨s.data.map charToLower⟩

/-- JavaScript `String.prototype.slice(0, n)`. -/
def jsSlice (s : String) (n : Nat) : String := ⟨s.data.take n⟩

/-- JavaScript string length. -/
def jsLen (s : String) : Nat := s.data.length

/-- JavaScript template interpolation of a possibly-undefined string field. -/
def showOptStr : Option String → String
  | none => "undefined"
  | some s => s

/-- The caller-supplied Daydreams context map (`Record<string, any>`);
only the two history keys the pipeline reads are modelled. -/
structure Context where
  previousTransactions : Option (List String) := none
  conversationHistory : Option (List String) := none
  deriving Repr, DecidableEq

/-- A JavaScript object, as the pipeline sees one: the union of all
fields the source code ever reads or writes on a raw input, a
structured record, or an enriched record.  Absent fields are `none`. -/
structure JSObj where
  hash : Option String := none
  from_ : Option String := none
  to_ : Option String := none
  value : Option ℚ := none
  data : Option String := none
  gas : Option ℚ := none
  chainId : Option String := none
  content : Option String := none
  message : Option String := none
  event : Option String := none
  inputType : Option String := none
  input : Option String := none
  source : Option String := none
  timestamp : Option ℚ := none
  parameters : Option String := none
  blockNumber : Option ℚ := none
  transactionHash : Option String := none
  type_ : Option String := none
  previousTxs : Option (List String) := none
  sender : Option String := none
  conversationHistory : Option (List String) := none
  eventName : Option String := none
  transactionType : Option String := none
  risk : Option String := none
  intent : Option String := none
  sentiment : Option String := none
  eventCategory : Option String := none
  deriving Repr, DecidableEq

/-- `SensibilityInput` from layers.ts; `rawData = none` models a
`null`/`undefined` raw value. -/
structure SensibilityInput where
  rawData : Option JSObj := none
  context : Option Context := none
  deriving Repr, DecidableEq

/-- The `metadata` part of `UnderstandingOutput`. -/
structure Metadata where
  dataType : String
  source : String
  timestamp : ℚ
  deriving Repr, DecidableEq

/-- `UnderstandingOutput` from layers.ts. -/
structure UnderstandingOutput where
  categorizedData : JSObj
  metadata : Metadata
  deriving Repr, DecidableEq

/-- The `params` object of a proposed action: the union of all parameter
fields the source ever attaches to or reads off an action. -/
structure ActionParams where
  address : Option String := none
  to_ : Option String := none
  value : Option ℚ := none
  data : Option String := none
  chainId : Option String := none
  txHash : Option String := none
  content : Option String := none
  context : Option JSObj := none
  query : Option String := none
  event : Option JSObj := none
  force : Bool := false
  token : Option String := none
  spender : Option String := none
  amount : Option ℚ := none
  message : Option String := none
  bytecode : Option String := none
  deriving Repr, DecidableEq

/-- One proposed action (`{action, params, justification}`). -/
structure CandidateAction where
  action : String
  params : ActionParams := {}
  justification : String := ""
  deriving Repr, DecidableEq

/-- `ReasonOutput` from layers.ts. -/
structure ReasonOutput where
  proposedActions : List CandidateAction
  reasoning : String
  deriving Repr, DecidableEq

/-- `CritiqueOutput` from layers.ts (the `CritiqueResult` of the spec). -/
structure CritiqueOutput where
  confidence : ℚ
  limitations : List String
  uncertainties : List String
  approvedActions : List CandidateAction
  rejectedActions : List CandidateAction
  explanation : String
  deriving Repr, DecidableEq

/-- Result of one categorical-imperative sub-test (`{passes, reason}`). -/
structure TestResult where
  passes : Bool
  reason : String
  deriving Repr, DecidableEq

/-- `CategoricalImperativeResult` (`{approved, reason}`). -/
structure CategoricalImperativeResult where
  approved : Bool
  reason : String
  deriving Repr, DecidableEq

/-- Result of the per-action epistemic check (`{uncertain, reason}`). -/
structure UncertaintyFlag where
  uncertain : Bool
  reason : String
  deriving Repr, DecidableEq

/-- Result of the pipeline-level boundary check (`{shouldDefer, reason}`). -/
structure DeferralDecision where
  shouldDefer : Bool
  reason : String
  deriving Repr, DecidableEq

/-- Result of `checkAddress` in the blockchain ethics module. -/
structure BlockchainAddress where
  address : String
  category : String
  reason : String
  deriving Repr, DecidableEq

/-- Result of `checkContractSafety` in the blockchain ethics module. -/
structure ContractSafetyResult where
  safe : Bool
  reason : String
  risks : List String := []
  deriving Repr, DecidableEq

/-- Result of `validateActionParams` (`{valid, reason}`). -/
structure ValidationResult where
  valid : Bool
  reason : String
  deriving Repr, DecidableEq

namespace Layers

/-- Core of `detectDataType` on a non-null object (layers.ts):
structural-shape classification in fixed priority order. -/
def detectDataTypeCore (data : JSObj) : String :=
  if strTruthy data.hash && strTruthy data.from_ && strTruthy data.to_ then "transaction"
  else if strTruthy data.content || strTruthy data.message then "message"
  else if strTruthy data.event then "event"
  else if data.inputType == some "user" then "userInput"
  else "unknown"

/-- `detectDataType(data)` from layers.ts.  Reading `data.hash` on a
`null`/`undefined` raw value throws a TypeError in JavaScript. -/
def detectDataType (data : Option JSObj) : Except String String :=
  match data with
  | none => .error "TypeError: cannot read hash of null"
  | some d => .ok (detectDataTypeCore d)

/-- `detectSource(data)` from layers.ts. -/
def detectSource (data : JSObj) : String :=
  if strTruthy data.chainId then
    match getStrD data.chainId with
    | "1" => "Ethereum"
    | "42161" => "Arbitrum"
    | "10" => "Optimism"
    | "56" => "BSC"
    | c => "Chain-" ++ c
  else if strTruthy data.source then getStrD data.source
  else "unknown"

/-- `structureData(data, type, context)` from layers.ts, with the
`Date.now()` default for timestamps passed in as `now`. -/
def structureData (data : JSObj) (type_ : String) (context : Option Context)
    (now : ℚ) : JSObj :=
  match type_ with
  | "transaction" =>
    { hash := data.hash
      from_ := data.from_
      to_ := data.to_
      value := some (if numTruthy data.value then getNumD data.value else 0)
      data := some (if strTruthy data.data then getStrD data.data else "")
      gas := data.gas
      chainId := data.chainId
      previousTxs := some
        (match context with
         | none => []
         | some c => c.previousTransactions.getD []) }
  | "message" =>
    { content := jsOrStr data.content data.message
      sender := jsOrStr data.sender data.from_
      timestamp := some (if numTruthy data.timestamp then getNumD data.timestamp else now)
      conversationHistory := some
        (match context with
         | none => []
         | some c => c.conversationHistory.getD []) }
  | "event" =>
    { eventName := data.event
      parameters := some (if strTruthy data.parameters then getStrD data.parameters else "{}")
      blockNumber := data.blockNumber
      transactionHash := data.transactionHash }
  | "userInput" =>
    { input := data.input
      type_ := data.inputType
      timestamp := some (if numTruthy data.timestamp then getNumD data.timestamp else now) }
  | _ => data

/-- `sensibilityLayer(input)` from layers.ts.  `now` models the
`Date.now()` call that fills `metadata.timestamp`. -/
def sensibilityLayer (input : SensibilityInput) (now : ℚ) :
    Except String UnderstandingOutput :=
  match input.rawData with
  | none => .error "TypeError: cannot read hash of null"
  | some d =>
    let dataType := detectDataTypeCore d
    let source := detectSource d
    let categorizedData := structureData d dataType input.context now
    .ok { categorizedData := categorizedData
          metadata := { dataType := dataType, source := source, timestamp := now } }

/-- `categorizeTransaction(tx)` from layers.ts. -/
def categorizeTransaction (tx : JSObj) : String :=
  if !strTruthy tx.to_ then "contract-deployment"
  else if strTruthy tx.data && decide (jsLen (getStrD tx.data) > 2) then
    let signature := jsSlice (getStrD tx.data) 10
    if signature == "0xa9059cbb" then "ERC20-transfer"
    else if signature == "0x23b872dd" then "ERC20-transferFrom"
    else "unknown-contract-interaction"
  else "value-transfer"

/-- `assessRisk(tx)` from layers.ts. -/
def assessRisk (tx : JSObj) : String :=
  if numGt tx.value 1000 || !strTruthy tx.to_ ||
     (match tx.data with
      | some s => decide (jsLen s > 1000)
      | none => false) then "high"
  else "low"

/-- `detectIntent(message)` from layers.ts.  Reading
`message.content.toLowerCase()` throws when `content` is absent. -/
def detectIntent (message : JSObj) : Except String String :=
  match message.content with
  | none => .error "TypeError: cannot read toLowerCase of undefined"
  | some c =>
    let content := jsToLower c
    .ok (if jsIncludes content "buy" || jsIncludes content "purchase" then "purchase-intent"
    else if jsIncludes content "sell" || jsIncludes content "trade" then "sell-intent"
    else if jsIncludes content "help" || jsIncludes content "?" then "question"
    else if jsIncludes content "hello" || jsIncludes content "hi" then "greeting"
    else "statement")

/-- `analyzeSentiment(message)` from layers.ts. -/
def analyzeSentiment (message : JSObj) : Except String String :=
  match message.content with
  | none => .error "TypeError: cannot read toLowerCase of undefined"
  | some c =>
    let content := jsToLower c
    let positive := (["good", "great", "excellent", "thanks", "happy"].filter
      (fun word => jsIncludes content word)).length
    let negative := (["bad", "poor", "terrible", "fail", "sad"].filter
      (fun word => jsIncludes content word)).length
    .ok (if positive > negative then "positive"
    else if negative > positive then "negative"
    else "neutral")

/-- `categorizeEvent(event)` from layers.ts. -/
def categorizeEvent (event : JSObj) : String :=
  if event.eventName == some "Transfer" then "token-transfer"
  else if event.eventName == some "Approval" then "token-approval"
  else "generic-event"

/-- `understandingLayer(input)` from layers.ts: add the
category-specific derived fields to a copy of the record. -/
def understandingLayer (input : UnderstandingOutput) :
    Except String UnderstandingOutput :=
  if input.metadata.dataType == "transaction" then
    .ok { input with categorizedData :=
      { input.categorizedData with
        transactionType := some (categorizeTransaction input.categorizedData)
        risk := some (assessRisk input.categorizedData) } }
  else if input.metadata.dataType == "message" then do
    let intent ← detectIntent input.categorizedData
    let sentiment ← analyzeSentiment input.categorizedData
    .ok { input with categorizedData :=
      { input.categorizedData with
        intent := some intent
        sentiment := some sentiment } }
  else if input.metadata.dataType == "event" then
    .ok { input with categorizedData :=
      { input.categorizedData with
        eventCategory := some (categorizeEvent input.categorizedData) } }
  else .ok input

/-- `generateContextualResponse(data)` from layers.ts. -/
def generateContextualResponse (data : JSObj) : String :=
  if data.intent == some "greeting" then
    "Hello! How can I assist you with blockchain or AI tasks?"
  else if data.intent == some "question" then
    "Let me look that up for you. I\x27ll respond shortly."
  else if data.intent == some "purchase-intent" then
    "I can assist with blockchain transactions. Please provide more details."
  else "Thank you for your message. I\x27ll process it accordingly."

/-- `reasonLayer(input)` from layers.ts: per-category action proposal. -/
def reasonLayer (input : UnderstandingOutput) : ReasonOutput :=
  let cd := input.categorizedData
  if input.metadata.dataType == "transaction" then
    { reasoning := "Analyzing " ++ showOptStr cd.transactionType ++
        " transaction from " ++ showOptStr cd.from_ ++ " to " ++ showOptStr cd.to_
      proposedActions :=
        [{ action := "verifyRecipient"
           params := { address := cd.to_ }
           justification := "Ensure recipient is valid and not flagged for scams" }] ++
        (if numGt cd.value 0 then
          [{ action := "executeTransaction"
             params := { to_ := cd.to_, value := cd.value, data := cd.data }
             justification := "Transaction parameters validated, value is positive" }]
         else []) ++
        [{ action := "checkGasPrice"
           params := { chainId := cd.chainId }
           justification := "Optimize transaction cost based on current gas prices" }] ++
        (if cd.risk == some "high" then
          [{ action := "monitorTransaction"
             params := { txHash := cd.hash }
             justification := "High-risk transaction requires additional monitoring" }]
         else []) }
  else if input.metadata.dataType == "message" then
    { reasoning := "Processing message with intent: " ++ showOptStr cd.intent ++
        " and sentiment: " ++ showOptStr cd.sentiment
      proposedActions :=
        [{ action := "respondToMessage"
           params := { content := some (generateContextualResponse cd), context := some cd }
           justification := "Generated response based on intent, sentiment, and history" }] ++
        (if cd.intent == some "question" then
          [{ action := "searchForAnswer"
             params := { query := cd.content }
             justification := "Perform search to provide accurate response" }]
         else []) }
  else if input.metadata.dataType == "event" then
    { reasoning := "Processing event: " ++ showOptStr cd.eventName
      proposedActions :=
        [{ action := "logEvent"
           params := { event := some cd }
           justification := "Record event for future reference" }] }
  else { proposedActions := [], reasoning := "" }

/-- `checkEpistemicBoundaries(action)` from layers.ts (the per-action
epistemic checker).  Reading `content.length` throws when a
`respondToMessage` action carries no `content`. -/
def checkEpistemicBoundaries (action : CandidateAction) :
    Except String UncertaintyFlag :=
  if action.action == "executeTransaction" && numGt action.params.value 1000 then
    .ok { uncertain := true, reason := "High-value transactions exceed confidence boundaries" }
  else if action.action == "respondToMessage" then
    match action.params.content with
    | none => .error "TypeError: cannot read length of undefined"
    | some c =>
      if decide (jsLen c > 500) then
        .ok { uncertain := true, reason := "Long responses may exceed knowledge boundaries" }
      else .ok { uncertain := false, reason := "" }
  else .ok { uncertain := false, reason := "" }

/-- `universalizabilityTest(action)` from layers.ts.  Reading
`content.includes` throws when a `respondToMessage` action carries no
`content`. -/
def universalizabilityTest (action : CandidateAction) : Except String TestResult :=
  if action.action == "executeTransaction" && numLt action.params.value 0 then
    .ok { passes := false
          reason := "A system where transactions take value without consent would collapse" }
  else if action.action == "respondToMessage" then
    match action.params.content with
    | none => .error "TypeError: cannot read includes of undefined"
    | some c =>
      if jsIncludes c "mislead" then
        .ok { passes := false
              reason := "A system where AI agents mislead users cannot be universalized" }
      else .ok { passes := true, reason := "Action can be universalized" }
  else .ok { passes := true, reason := "Action can be universalized" }

/-- `humanityAsEndTest(action)` from layers.ts. -/
def humanityAsEndTest (action : CandidateAction) : Except String TestResult :=
  if action.action == "executeTransaction" && action.params.force then
    .ok { passes := false
          reason := "Forcing transactions without consent treats users as means" }
  else if action.action == "respondToMessage" then
    match action.params.content with
    | none => .error "TypeError: cannot read includes of undefined"
    | some c =>
      if jsIncludes c "manipulate" then
        .ok { passes := false
              reason := "Manipulative responses treat users as means to an end" }
      else .ok { passes := true, reason := "Action respects humanity as an end" }
  else .ok { passes := true, reason := "Action respects humanity as an end" }

/-- `kingdomOfEndsTest(action)` from layers.ts. -/
def kingdomOfEndsTest (action : CandidateAction) : Except String TestResult :=
  if action.action == "executeTransaction" && action.params.to_ == some "0xknownScamAddress" then
    .ok { passes := false
          reason := "Supporting scams is incompatible with a moral community" }
  else if action.action == "respondToMessage" then
    match action.params.content with
    | none => .error "TypeError: cannot read includes of undefined"
    | some c =>
      if jsIncludes c "hate speech" then
        .ok { passes := false
              reason := "Hate speech is incompatible with a kingdom of ends" }
      else .ok { passes := true, reason := "Action is compatible with a moral community" }
  else .ok { passes := true, reason := "Action is compatible with a moral community" }

/-- `categoricalImperative(action)` from layers.ts: the three sub-tests
in fixed order, stopping at the first failure. -/
def categoricalImperative (action : CandidateAction) :
    Except String CategoricalImperativeResult := do
  let universalTest ← universalizabilityTest action
  if !universalTest.passes then
    return { approved := false, reason := "Fails universalizability: " ++ universalTest.reason }
  let humanityTest ← humanityAsEndTest action
  if !humanityTest.passes then
    return { approved := false, reason := "Fails humanity as end: " ++ humanityTest.reason }
  let kingdomTest ← kingdomOfEndsTest action
  if !kingdomTest.passes then
    return { approved := false, reason := "Fails kingdom of ends: " ++ kingdomTest.reason }
  return { approved := true
           reason := "Action passes all three formulations of the categorical imperative" }

/-- `calculateConfidence(approved, rejected, uncertainties)` from
layers.ts.  JavaScript numbers are modelled as exact rationals. -/
def calculateConfidence (approved rejected : List CandidateAction)
    (uncertainties : List String) : ℚ :=
  let confidence : ℚ := 1
  let confidence :=
    if rejected.length > 0 then confidence - 0.2 * rejected.length else confidence
  let confidence :=
    if uncertainties.length > 0 then confidence - 0.1 * uncertainties.length else confidence
  let confidence := approved.foldl
    (fun c action =>
      if action.action == "executeTransaction" && numGt action.params.value 1000 then
        c - 0.1
      else c)
    confidence
  max 0 confidence

/-- The `for` loop of `critiqueLayer`: ethical check then epistemic
check per action, partitioning in proposal order and accumulating
limitation and uncertainty reasons and the explanation lines. -/
def critiqueLoop : List CandidateAction →
    Except String (List CandidateAction × List CandidateAction × List String × List String × String)
  | [] => .ok ([], [], [], [], "")
  | action :: rest => do
    let ethicalCheck ← categoricalImperative action
    let boundaryCheck ← checkEpistemicBoundaries action
    let (approved, rejected, limitations, uncertainties, explanation) ← critiqueLoop rest
    let uncertainties' :=
      if boundaryCheck.uncertain then boundaryCheck.reason :: uncertainties else uncertainties
    if ethicalCheck.approved then
      .ok (action :: approved, rejected, limitations, uncertainties',
        "\nApproved: " ++ action.action ++ " - " ++ ethicalCheck.reason ++ explanation)
    else
      .ok (approved, action :: rejected,
        ("Ethical constraint: " ++ ethicalCheck.reason) :: limitations, uncertainties',
        "\nRejected: " ++ action.action ++ " - " ++ ethicalCheck.reason ++ explanation)

/-- `critiqueLayer(input)` from layers.ts. -/
def critiqueLayer (input : ReasonOutput) : Except String CritiqueOutput := do
  let (approvedActions, rejectedActions, limitations, uncertainties, explanation) ←
    critiqueLoop input.proposedActions
  let confidence := calculateConfidence approvedActions rejectedActions uncertainties
  .ok { confidence := confidence
        limitations := limitations
        uncertainties := uncertainties
        approvedActions := approvedActions
        rejectedActions := rejectedActions
        explanation := input.reasoning ++ "\n" ++ explanation ++
          "\nConfidence: " ++ toString confidence }

end Layers

namespace Pipeline

/-- `carPipeline(rawInput, context, options)` from pipeline.ts: the four
layers in sequence; an exception anywhere is re-thrown wrapped in a
`Pipeline failed` message.  The debug/timing options do not affect the
returned value and are not modelled. -/
def carPipeline (rawInput : Option JSObj) (context : Option Context) (now : ℚ) :
    Except String CritiqueOutput :=
  match (do
    let sensibilityOutput ← Layers.sensibilityLayer
      { rawData := rawInput, context := context } now
    let understandingOutput ← Layers.understandingLayer sensibilityOutput
    let reasonOutput := Layers.reasonLayer understandingOutput
    Layers.critiqueLayer reasonOutput :
    Except String CritiqueOutput) with
  | .ok out => .ok out
  | .error e => .error ("Pipeline failed: " ++ e)

/-- Model of `Number.prototype.toFixed(2)` (round by scaling). -/
def toFixed2 (q : ℚ) : String :=
  let n : Int := ⌊q * 100 + 1 / 2⌋
  let a := n.natAbs
  (if n < 0 then "-" else "") ++ toString (a / 100) ++ "." ++
    (if a % 100 < 10 then "0" else "") ++ toString (a % 100)

/-- `checkEpistemicBoundaries(output, confidenceThreshold)` from
pipeline.ts (the Boundary Decider; default threshold 0.7). -/
def checkEpistemicBoundaries (output : CritiqueOutput)
    (confidenceThreshold : ℚ) : DeferralDecision :=
  if output.confidence < confidenceThreshold then
    { shouldDefer := true
      reason := "Low confidence (" ++ toFixed2 output.confidence ++
        ") below threshold of " ++ toString confidenceThreshold }
  else if output.limitations.length > 0 then
    { shouldDefer := true
      reason := "Limitations detected: " ++ String.intercalate ", " output.limitations }
  else if output.uncertainties.length > 0 then
    { shouldDefer := true
      reason := "Uncertainties present: " ++ String.intercalate ", " output.uncertainties }
  else { shouldDefer := false, reason := "Within epistemic boundaries" }

/-- `generateExplanation(output)` from pipeline.ts (the Explanation
Renderer); `trim()` is applied by the source to the surrounding
template, modelled by building the trimmed text directly. -/
def generateExplanation (output : CritiqueOutput) : String :=
  let approvedActionsList :=
    let s := String.intercalate "\n" (output.approvedActions.map
      (fun action => "- " ++ action.action ++ ": " ++ action.justification))
    if s == "" then "None" else s
  let rejectedActionsList :=
    String.intercalate "\n" (output.rejectedActions.map
      (fun action => "- " ++ action.action ++ ": Rejected due to ethical constraints"))
  "**Decision Analysis**\n- **Confidence Level**: " ++ toFixed2 output.confidence ++
    "\n- **Approved Actions**:\n" ++ approvedActionsList ++
    "\n\n- **Rejected Actions**:\n" ++ rejectedActionsList ++
    "\n\n**Reasoning**:\n" ++ output.explanation ++ "\n\n" ++
    (if output.limitations.length > 0 then
      "**Limitations**:\n- " ++ String.intercalate "\n- " output.limitations
     else "") ++ "\n" ++
    (if output.uncertainties.length > 0 then
      "**Uncertainties**:\n- " ++ String.intercalate "\n- " output.uncertainties
     else "")

end Pipeline

namespace Ethics

/-- The mock list of known malicious addresses. -/
def knownMaliciousAddresses : List String :=
  ["0xknownScamAddress", "0xanotherScam"]

/-- `checkAddress(address)` from the blockchain ethics module. -/
def checkAddress (address : String) : BlockchainAddress :=
  if knownMaliciousAddresses.contains address then
    { address := address
      category := "malicious"
      reason := "Address is known to be associated with scams or malicious activities." }
  else if jsStartsWith address "0x000" then
    { address := address
      category := "suspicious"
      reason := "Address matches suspicious pattern (starts with 0x000)." }
  else
    { address := address
      category := "unknown"
      reason := "No information available for this address." }

/-- `checkContractSafety(contractAddress, data)` from the blockchain
ethics module.  Its declared parameter type is `string`, but the caller
passes `action.params.to`, which can be `undefined`: calling
`startsWith` on `undefined` throws a TypeError. -/
def checkContractSafety (contractAddress : Option String) (data : String) :
    Except String ContractSafetyResult :=
  match contractAddress with
  | none => .error "TypeError: cannot read startsWith of undefined"
  | some addr =>
    if jsStartsWith addr "0xsafe" then
      .ok { safe := true, reason := "Contract is verified and safe." }
    else if jsIncludes data "selfdestruct" then
      .ok { safe := false
            reason := "Contract interaction includes dangerous operations (selfdestruct)."
            risks := ["Potential loss of funds"] }
    else
      .ok { safe := false
            reason := "Contract safety could not be verified."
            risks := ["Unknown contract behavior"] }

/-- `checkTransactionValue(value, token)` from the blockchain ethics
module (fixed ceiling of 1000 units). -/
def checkTransactionValue (value : ℚ) (token : Option String) :
    CategoricalImperativeResult :=
  if value > 1000 then
    { approved := false
      reason := "Transaction value exceeds maximum allowed limit of 1000 " ++
        (if strTruthy token then getStrD token else "ETH") }
  else { approved := true, reason := "Transaction value within acceptable limits" }

/-- `isBlockchainAction(action)`: the fixed list of monetary action names. -/
def isBlockchainAction (action : CandidateAction) : Bool :=
  ["executeTransaction", "deployContract", "callContract",
   "signMessage", "approveToken", "transferToken"].contains action.action

/-- `validateActionParams(action)` from the blockchain ethics module. -/
def validateActionParams (action : CandidateAction) : ValidationResult :=
  match action.action with
  | "executeTransaction" =>
    if !strTruthy action.params.to_ then
      { valid := false, reason := "Missing recipient address" }
    else { valid := true, reason := "All required parameters are present" }
  | "deployContract" =>
    if !strTruthy action.params.bytecode then
      { valid := false, reason := "Missing contract bytecode" }
    else { valid := true, reason := "All required parameters are present" }
  | "callContract" =>
    if !strTruthy action.params.to_ || !strTruthy action.params.data then
      { valid := false, reason := "Missing contract address or call data" }
    else { valid := true, reason := "All required parameters are present" }
  | "signMessage" =>
    if !strTruthy action.params.message then
      { valid := false, reason := "Missing message to sign" }
    else { valid := true, reason := "All required parameters are present" }
  | "approveToken" =>
    if !strTruthy action.params.token || !strTruthy action.params.spender ||
       !numTruthy action.params.amount then
      { valid := false
        reason := "Missing token approval parameters (token, spender, or amount)" }
    else { valid := true, reason := "All required parameters are present" }
  | "transferToken" =>
    if !strTruthy action.params.token || !strTruthy action.params.to_ ||
       !numTruthy action.params.amount then
      { valid := false
        reason := "Missing token transfer parameters (token, recipient, or amount)" }
    else { valid := true, reason := "All required parameters are present" }
  | _ => { valid := false, reason := "Unknown blockchain action" }

/-- The value-ceiling step and final approval of
`evaluateBlockchainAction` (its last two statements). -/
def valueStep (action : CandidateAction) : Except String CategoricalImperativeResult :=
  if numTruthy action.params.value &&
     !(checkTransactionValue (getNumD action.params.value) action.params.token).approved then
    .ok (checkTransactionValue (getNumD action.params.value) action.params.token)
  else .ok { approved := true, reason := "Blockchain action passed all ethical checks" }

/-- `evaluateBlockchainAction(action)` from the blockchain ethics
module: skip non-monetary actions, validate parameters, check the
recipient address, check contract safety when call data is present,
then check the value ceiling; the first failing check returns. -/
def evaluateBlockchainAction (action : CandidateAction) :
    Except String CategoricalImperativeResult :=
  if !isBlockchainAction action then
    .ok { approved := true, reason := "Not a blockchain action" }
  else if !(validateActionParams action).valid then
    .ok { approved := false, reason := (validateActionParams action).reason }
  else if strTruthy action.params.to_ &&
      (checkAddress (getStrD action.params.to_)).category == "malicious" then
    .ok { approved := false
          reason := "Malicious recipient address: " ++
            (checkAddress (getStrD action.params.to_)).reason }
  else if strTruthy action.params.to_ &&
      (checkAddress (getStrD action.params.to_)).category == "suspicious" then
    .ok { approved := false
          reason := "Suspicious recipient address: " ++
            (checkAddress (getStrD action.params.to_)).reason }
  else if strTruthy action.params.data && decide (jsLen (getStrD action.params.data) > 2) then
    match checkContractSafety action.params.to_ (getStrD action.params.data) with
    | .error e => .error e
    | .ok contractCheck =>
      if !contractCheck.safe then
        .ok { approved := false
              reason := "Unsafe contract interaction: " ++ contractCheck.reason }
      else valueStep action
  else valueStep action

end Ethics


deriving instance DecidableEq for Except

/-! ## Verification -/

/-- The confidence deduction fold of `calculateConfidence` subtracts 0.1
for each approved expensive `executeTransaction`. -/
theorem foldl_confidence_deduction (l : List CandidateAction) (c : ℚ) :
    l.foldl
      (fun c action =>
        if action.action == "executeTransaction" && numGt action.params.value 1000 then
          c - 0.1
        else c) c =
    c - 0.1 * ((l.filter
      (fun a => a.action == "executeTransaction" && numGt a.params.value 1000)).length : ℚ) := by
  induction l generalizing c with
  | nil => simp
  | cons a l ih =>
    by_cases h : (a.action == "executeTransaction" && numGt a.params.value 1000) = true
    · simp only [List.foldl_cons, List.filter_cons, h, if_pos, ih, List.length_cons]
      push_cast
      ring
    · simp only [List.foldl_cons, List.filter_cons, h, ih]
      simp [h]

/-- Closed form of `calculateConfidence`. -/
theorem calculateConfidence_closed_form (approved rejected : List CandidateAction)
    (uncertainties : List String) :
    Layers.calculateConfidence approved rejected uncertainties =
      max 0 (1 - 0.2 * (rejected.length : ℚ) - 0.1 * (uncertainties.length : ℚ) -
        0.1 * ((approved.filter
          (fun a => a.action == "executeTransaction" && numGt a.params.value 1000)).length : ℚ)) := by
  simp only [Layers.calculateConfidence, foldl_confidence_deduction]
  congr 1
  by_cases hr : rejected.length > 0 <;> by_cases hu : uncertainties.length > 0
  · rw [if_pos hr, if_pos hu]
  · have h0 : uncertainties.length = 0 := Nat.eq_zero_of_not_pos hu
    rw [h0, if_pos hr, if_neg (lt_irrefl 0)]
    push_cast
    ring
  · have h0 : rejected.length = 0 := Nat.eq_zero_of_not_pos hr
    rw [h0, if_neg (lt_irrefl 0), if_pos hu]
    push_cast
    ring
  · have h0 : rejected.length = 0 := Nat.eq_zero_of_not_pos hr
    have h1 : uncertainties.length = 0 := Nat.eq_zero_of_not_pos hu
    rw [h0, h1, if_neg (lt_irrefl 0), if_neg (lt_irrefl 0)]
    push_cast
    ring

/-- Confidence is never negative and never exceeds 1. -/
theorem calculateConfidence_bounds (approved rejected : List CandidateAction)
    (uncertainties : List String) :
    0 ≤ Layers.calculateConfidence approved rejected uncertainties ∧
    Layers.calculateConfidence approved rejected uncertainties ≤ 1 := by
  rw [calculateConfidence_closed_form]
  refine ⟨le_max_left 0 _, max_le (by norm_num) ?_⟩
  have h1 : (0 : ℚ) ≤ 0.2 * (rejected.length : ℚ) := by positivity
  have h2 : (0 : ℚ) ≤ 0.1 * (uncertainties.length : ℚ) := by positivity
  have h3 : (0 : ℚ) ≤ 0.1 * ((approved.filter
      (fun a => a.action == "executeTransaction" && numGt a.params.value 1000)).length : ℚ) := by
    positivity
  linarith

/-- C1: the Boundary Decider defers iff confidence is below the
threshold, or limitations are non-empty, or uncertainties are
non-empty; the three conditions are checked in exactly that priority
order, only the first matching condition's reason is reported, and when
none hold the result is `shouldDefer = false` with the fixed
"Within epistemic boundaries" reason. -/
theorem boundary_decider_spec (out : CritiqueOutput) (t : ℚ) :
    ((Pipeline.checkEpistemicBoundaries out t).shouldDefer = true ↔
      (out.confidence < t ∨ out.limitations ≠ [] ∨ out.uncertainties ≠ [])) ∧
    (out.confidence < t →
      Pipeline.checkEpistemicBoundaries out t =
        { shouldDefer := true
          reason := "Low confidence (" ++ Pipeline.toFixed2 out.confidence ++
            ") below threshold of " ++ toString t }) ∧
    (¬ out.confidence < t → out.limitations ≠ [] →
      Pipeline.checkEpistemicBoundaries out t =
        { shouldDefer := true
          reason := "Limitations detected: " ++ String.intercalate ", " out.limitations }) ∧
    (¬ out.confidence < t → out.limitations = [] → out.uncertainties ≠ [] →
      Pipeline.checkEpistemicBoundaries out t =
        { shouldDefer := true
          reason := "Uncertainties present: " ++
            String.intercalate ", " out.uncertainties }) ∧
    (¬ out.confidence < t → out.limitations = [] → out.uncertainties = [] →
      Pipeline.checkEpistemicBoundaries out t =
        { shouldDefer := false, reason := "Within epistemic boundaries" }) := by
  refine ⟨?_, fun hlt => ?_, fun hnlt hlim => ?_, fun hnlt hlim hunc => ?_,
    fun hnlt hlim hunc => ?_⟩
  · by_cases h1 : out.confidence < t
    · simp [Pipeline.checkEpistemicBoundaries, h1]
    · by_cases h2 : out.limitations = []
      · by_cases h3 : out.uncertainties = []
        · simp [Pipeline.checkEpistemicBoundaries, h1, h2, h3]
        · simp [Pipeline.checkEpistemicBoundaries, h1, h2, h3, List.length_pos]
      · simp [Pipeline.checkEpistemicBoundaries, h1, h2, List.length_pos]
  · unfold Pipeline.checkEpistemicBoundaries
    rw [if_pos hlt]
  · unfold Pipeline.checkEpistemicBoundaries
    rw [if_neg hnlt, if_pos (List.length_pos.mpr hlim)]
  · unfold Pipeline.checkEpistemicBoundaries
    rw [if_neg hnlt, if_neg (by simp [hlim]), if_pos (List.length_pos.mpr hunc)]
  · unfold Pipeline.checkEpistemicBoundaries
    rw [if_neg hnlt, if_neg (by simp [hlim]), if_neg (by simp [hunc])]

/-- C1 witness: at confidence 1, threshold 0, with no limitations or
uncertainties, the Boundary Decider proceeds with the fixed reason. -/
theorem boundary_decider_spec_witness :
    ¬ ((1 : ℚ) < 0) ∧
    Pipeline.checkEpistemicBoundaries ⟨1, [], [], [], [], ""⟩ 0 =
      { shouldDefer := false, reason := "Within epistemic boundaries" } :=
  ⟨by decide, (boundary_decider_spec ⟨1, [], [], [], [], ""⟩ 0).2.2.2.2 (by decide) rfl rfl⟩

/-- C2: the confidence computed by the Critique Aggregator equals
`max 0 (1 - 0.2·|rejected| - 0.1·|uncertainties| - 0.1·|approved
expensive executeTransaction actions|)`, and the confidence of every
`CritiqueResult` produced by the critique layer lies in [0, 1]. -/
theorem calculateConfidence_spec (approved rejected : List CandidateAction)
    (uncertainties : List String) (inp : ReasonOutput) (out : CritiqueOutput)
    (h : Layers.critiqueLayer inp = .ok out) :
    Layers.calculateConfidence approved rejected uncertainties =
      max 0 (1 - 0.2 * (rejected.length : ℚ) - 0.1 * (uncertainties.length : ℚ) -
        0.1 * ((approved.filter
          (fun a => a.action == "executeTransaction" && numGt a.params.value 1000)).length : ℚ)) ∧
    0 ≤ Layers.calculateConfidence approved rejected uncertainties ∧
    Layers.calculateConfidence approved rejected uncertainties ≤ 1 ∧
    0 ≤ out.confidence ∧ out.confidence ≤ 1 := by
  have hb := calculateConfidence_bounds approved rejected uncertainties
  refine ⟨calculateConfidence_closed_form approved rejected uncertainties, hb.1, hb.2, ?_, ?_⟩ <;>
  · unfold Layers.critiqueLayer at h
    cases hl : Layers.critiqueLoop inp.proposedActions with
    | error e => rw [hl] at h; simp only [Bind.bind, Except.bind] at h; exact Except.noConfusion h
    | ok res =>
      rw [hl] at h
      obtain ⟨ap, rj, lim, unc, expl⟩ := res
      simp only [Bind.bind, Except.bind] at h
      cases h
      first
        | exact (calculateConfidence_bounds ap rj unc).1
        | exact (calculateConfidence_bounds ap rj unc).2

/-- The critique of an empty proposal list, the instance used by the C2
witness. -/
def c2Out : CritiqueOutput :=
  { confidence := Layers.calculateConfidence [] [] []
    limitations := []
    uncertainties := []
    approvedActions := []
    rejectedActions := []
    explanation := "" ++ "\n" ++ "" ++ "\nConfidence: " ++
      toString (Layers.calculateConfidence [] [] []) }

/-- C2 witness: instantiating the confidence specification at the
critique of an empty proposal list. -/
theorem calculateConfidence_spec_witness :
    Layers.critiqueLayer { proposedActions := [], reasoning := "" } = .ok c2Out ∧
    0 ≤ c2Out.confidence ∧ c2Out.confidence ≤ 1 :=
  ⟨rfl, (calculateConfidence_spec [] [] [] { proposedActions := [], reasoning := "" }
    c2Out rfl).2.2.2⟩

/-- Compose the four layers into a full pipeline run. -/
theorem carPipeline_ok (raw : Option JSObj) (ctx : Option Context) (now : ℚ)
    (u u' : UnderstandingOutput) (r : CritiqueOutput)
    (hs : Layers.sensibilityLayer { rawData := raw, context := ctx } now = .ok u)
    (hu : Layers.understandingLayer u = .ok u')
    (hc : Layers.critiqueLayer (Layers.reasonLayer u') = .ok r) :
    Pipeline.carPipeline raw ctx now = .ok r := by
  unfold Pipeline.carPipeline
  rw [hs]
  simp only [Bind.bind, Except.bind, hu, hc]

/-- C7: an input classified as `unknown` flows through the pipeline
with an identity-copied record, zero proposed actions, an empty
reasoning string, and the empty critique `c2Out`: confidence exactly 1
and empty approved, rejected, limitations and uncertainties lists. -/
theorem unknown_input_spec (d : JSObj) (ctx : Option Context) (now : ℚ)
    (h : Layers.detectDataType (some d) = .ok "unknown") :
    Layers.sensibilityLayer { rawData := some d, context := ctx } now =
      .ok { categorizedData := d
            metadata := { dataType := "unknown", source := Layers.detectSource d,
                          timestamp := now } } ∧
    Layers.reasonLayer
      { categorizedData := d
        metadata := { dataType := "unknown", source := Layers.detectSource d,
                      timestamp := now } } =
      { proposedActions := [], reasoning := "" } ∧
    Pipeline.carPipeline (some d) ctx now = .ok c2Out ∧
    c2Out.confidence = 1 ∧ c2Out.limitations = [] ∧ c2Out.uncertainties = [] ∧
    c2Out.approvedActions = [] ∧ c2Out.rejectedActions = [] := by
  have hcore : Layers.detectDataTypeCore d = "unknown" := Except.ok.inj h
  have hs : Layers.sensibilityLayer { rawData := some d, context := ctx } now =
      .ok { categorizedData := Layers.structureData d (Layers.detectDataTypeCore d) ctx now
            metadata := { dataType := Layers.detectDataTypeCore d
                          source := Layers.detectSource d, timestamp := now } } := rfl
  rw [hcore] at hs
  have hsd : Layers.structureData d "unknown" ctx now = d := rfl
  rw [hsd] at hs
  have hu : Layers.understandingLayer
      { categorizedData := d
        metadata := { dataType := "unknown", source := Layers.detectSource d,
                      timestamp := now } } =
      .ok { categorizedData := d
            metadata := { dataType := "unknown", source := Layers.detectSource d,
                          timestamp := now } } := rfl
  have hc : Layers.critiqueLayer (Layers.reasonLayer
      { categorizedData := d
        metadata := { dataType := "unknown", source := Layers.detectSource d,
                      timestamp := now } }) = .ok c2Out := rfl
  have hconf : c2Out.confidence = 1 := by
    rw [show c2Out.confidence = Layers.calculateConfidence [] [] [] from rfl,
      calculateConfidence_closed_form]
    norm_num
  exact ⟨hs, rfl, carPipeline_ok (some d) ctx now _ _ c2Out hs hu hc,
    hconf, rfl, rfl, rfl, rfl⟩

/-- C7 witness: the unclassifiable record with only a `type` and a
`data` field is classified `unknown` and yields the empty critique. -/
theorem unknown_input_spec_witness :
    Layers.detectDataType (some { type_ := some "unknown", data := some "..." }) =
      .ok "unknown" ∧
    Pipeline.carPipeline (some { type_ := some "unknown", data := some "..." }) none 0 =
      .ok c2Out ∧
    c2Out.confidence = 1 :=
  ⟨rfl, (unknown_input_spec { type_ := some "unknown", data := some "..." } none 0 rfl).2.2.1,
    (unknown_input_spec { type_ := some "unknown", data := some "..." } none 0 rfl).2.2.2.1⟩

/-- A `respondToMessage` action carrying no `content` parameter. -/
def respondNoContent : CandidateAction := { action := "respondToMessage" }

/-- C3 counterexample: the Ethical Evaluator does not return a verdict
for every candidate action — on a `respondToMessage` action with no
`content` parameter the first sub-test throws a TypeError
(`content.includes` on `undefined`), so no approval or rejection reason
is produced. -/
theorem categoricalImperative_crash_counterexample :
    Layers.categoricalImperative respondNoContent =
      .error "TypeError: cannot read includes of undefined" ∧
    (Layers.categoricalImperative respondNoContent).toOption = none := ⟨rfl, rfl⟩

/-- Characterization of the Ethical Evaluator on actions that avoid the
missing-`content` crash (shared helper). -/
theorem categoricalImperative_cases (a : CandidateAction)
    (hc : a.action = "respondToMessage" → a.params.content.isSome = true) :
    ∃ u h k : TestResult,
      Layers.universalizabilityTest a = .ok u ∧
      Layers.humanityAsEndTest a = .ok h ∧
      Layers.kingdomOfEndsTest a = .ok k ∧
      Layers.categoricalImperative a = .ok (
        if u.passes = false then
          { approved := false, reason := "Fails universalizability: " ++ u.reason }
        else if h.passes = false then
          { approved := false, reason := "Fails humanity as end: " ++ h.reason }
        else if k.passes = false then
          { approved := false, reason := "Fails kingdom of ends: " ++ k.reason }
        else
          { approved := true
            reason := "Action passes all three formulations of the categorical imperative" }) ∧
      (a.action ≠ "executeTransaction" → a.action ≠ "respondToMessage" →
        u.passes = true ∧ h.passes = true ∧ k.passes = true) := by
  by_cases hresp : (a.action == "respondToMessage") = true
  · obtain ⟨c, hcc⟩ := Option.isSome_iff_exists.mp (hc (by simpa using hresp))
    have he : (a.action == "executeTransaction") = false := by
      have := (beq_iff_eq.mp hresp)
      simp [this]
    obtain ⟨u, hu⟩ : ∃ u, Layers.universalizabilityTest a = .ok u := by
      unfold Layers.universalizabilityTest
      rw [hcc]
      simp only [he, hresp, Bool.false_and, Bool.and_self, if_false, if_true,
        Bool.false_eq_true, Bool.true_and]
      split <;> exact ⟨_, rfl⟩
    obtain ⟨h, hh⟩ : ∃ h, Layers.humanityAsEndTest a = .ok h := by
      unfold Layers.humanityAsEndTest
      rw [hcc]
      simp only [he, hresp, Bool.false_and, Bool.and_self, if_false, if_true,
        Bool.false_eq_true, Bool.true_and]
      split <;> exact ⟨_, rfl⟩
    obtain ⟨k, hk⟩ : ∃ k, Layers.kingdomOfEndsTest a = .ok k := by
      unfold Layers.kingdomOfEndsTest
      rw [hcc]
      simp only [he, hresp, Bool.false_and, Bool.and_self, if_false, if_true,
        Bool.false_eq_true, Bool.true_and]
      split <;> exact ⟨_, rfl⟩
    refine ⟨u, h, k, hu, hh, hk, ?_, fun _ hne => absurd (beq_iff_eq.mp hresp) hne⟩
    cases hup : u.passes <;> cases hhp : h.passes <;> cases hkp : k.passes <;>
      simp [Layers.categoricalImperative, hu, hh, hk, hup, hhp, hkp,
        Bind.bind, Except.bind, Pure.pure, Except.pure]
  · have hresp' : (a.action == "respondToMessage") = false := by
      simpa using hresp
    obtain ⟨u, hu⟩ : ∃ u, Layers.universalizabilityTest a = .ok u := by
      unfold Layers.universalizabilityTest
      by_cases h1 : (a.action == "executeTransaction" && numLt a.params.value 0) = true
      · rw [if_pos h1]; exact ⟨_, rfl⟩
      · rw [if_neg h1, if_neg (by simp [hresp'])]; exact ⟨_, rfl⟩
    obtain ⟨h, hh⟩ : ∃ h, Layers.humanityAsEndTest a = .ok h := by
      unfold Layers.humanityAsEndTest
      by_cases h1 : (a.action == "executeTransaction" && a.params.force) = true
      · rw [if_pos h1]; exact ⟨_, rfl⟩
      · rw [if_neg h1, if_neg (by simp [hresp'])]; exact ⟨_, rfl⟩
    obtain ⟨k, hk⟩ : ∃ k, Layers.kingdomOfEndsTest a = .ok k := by
      unfold Layers.kingdomOfEndsTest
      by_cases h1 :
          (a.action == "executeTransaction" && a.params.to_ == some "0xknownScamAddress") = true
      · rw [if_pos h1]; exact ⟨_, rfl⟩
      · rw [if_neg h1, if_neg (by simp [hresp'])]; exact ⟨_, rfl⟩
    refine ⟨u, h, k, hu, hh, hk, ?_, fun hne _ => ?_⟩
    · cases hup : u.passes <;> cases hhp : h.passes <;> cases hkp : k.passes <;>
        simp [Layers.categoricalImperative, hu, hh, hk, hup, hhp, hkp,
          Bind.bind, Except.bind, Pure.pure, Except.pure]
    · have he : (a.action == "executeTransaction") = false := by
        simpa using hne
      have h1 : Layers.universalizabilityTest a =
          .ok { passes := true, reason := "Action can be universalized" } := by
        unfold Layers.universalizabilityTest
        simp [he, hresp']
      have h2 : Layers.humanityAsEndTest a =
          .ok { passes := true, reason := "Action respects humanity as an end" } := by
        unfold Layers.humanityAsEndTest
        simp [he, hresp']
      have h3 : Layers.kingdomOfEndsTest a =
          .ok { passes := true, reason := "Action is compatible with a moral community" } := by
        unfold Layers.kingdomOfEndsTest
        simp [he, hresp']
      rw [h1] at hu
      rw [h2] at hh
      rw [h3] at hk
      exact ⟨by rw [← Except.ok.inj hu], by rw [← Except.ok.inj hh], by rw [← Except.ok.inj hk]⟩

/-- C3 (amended): for every candidate action whose `content` parameter
is present whenever the action is `respondToMessage`, the three
sub-tests all return verdicts, the Ethical Evaluator short-circuits in
the order universalizability, humanity-as-end, kingdom-of-ends,
reporting exactly the first failing sub-test's reason, and every action
name/parameter combination not matched by the literal checks passes by
default with the fixed reason. -/
theorem categoricalImperative_spec (a : CandidateAction)
    (hc : a.action = "respondToMessage" → a.params.content.isSome = true) :
    ∃ u h k : TestResult,
      Layers.universalizabilityTest a = .ok u ∧
      Layers.humanityAsEndTest a = .ok h ∧
      Layers.kingdomOfEndsTest a = .ok k ∧
      Layers.categoricalImperative a = .ok (
        if u.passes = false then
          { approved := false, reason := "Fails universalizability: " ++ u.reason }
        else if h.passes = false then
          { approved := false, reason := "Fails humanity as end: " ++ h.reason }
        else if k.passes = false then
          { approved := false, reason := "Fails kingdom of ends: " ++ k.reason }
        else
          { approved := true
            reason := "Action passes all three formulations of the categorical imperative" }) ∧
      (a.action ≠ "executeTransaction" → a.action ≠ "respondToMessage" →
        u.passes = true ∧ h.passes = true ∧ k.passes = true) :=
  categoricalImperative_cases a hc

/-- A plain `verifyRecipient` action, matched by none of the literal
ethical checks. -/
def verifyAct : CandidateAction :=
  { action := "verifyRecipient"
    params := { address := some "0xB" }
    justification := "Ensure recipient is valid and not flagged for scams" }

/-- C3 witness: a `verifyRecipient` action passes all three sub-tests
by default and is approved with the fixed reason. -/
theorem categoricalImperative_spec_witness :
    Layers.categoricalImperative verifyAct =
      .ok { approved := true
            reason := "Action passes all three formulations of the categorical imperative" } := by
  obtain ⟨u, h, k, hu, hh, hk, hmain, hdef⟩ :=
    categoricalImperative_spec verifyAct (fun hx => absurd hx (by decide))
  obtain ⟨hup, hhp, hkp⟩ := hdef (by decide) (by decide)
  rw [hmain, hup, hhp, hkp]
  simp

/-- An `approveToken` action with valid parameters that carries call
data but no recipient address. -/
def approveWithData : CandidateAction :=
  { action := "approveToken"
    params := { token := some "0xTok", spender := some "0xSp", amount := some 5,
                data := some "0xabcdef" } }

/-- C4 counterexample: the Specialized Domain Evaluator does not return
the first failing check's reason for every action — when call data
longer than 2 characters is present without a recipient address, the
contract-safety step throws a TypeError (`startsWith` on `undefined`)
instead of rejecting the action as unverifiable. -/
theorem evaluateBlockchainAction_crash_counterexample :
    Ethics.evaluateBlockchainAction approveWithData =
      .error "TypeError: cannot read startsWith of undefined" ∧
    (Ethics.evaluateBlockchainAction approveWithData).toOption = none := ⟨rfl, rfl⟩

/-- The recipient-address step does not reject: either no truthy
recipient is present, or its category is neither malicious nor
suspicious. -/
def addrStepPasses (a : CandidateAction) : Prop :=
  strTruthy a.params.to_ = false ∨
  ((Ethics.checkAddress (getStrD a.params.to_)).category ≠ "malicious" ∧
   (Ethics.checkAddress (getStrD a.params.to_)).category ≠ "suspicious")

/-- C4 (amended): the Specialized Domain Evaluator applies its checks
in order — (a) non-monetary action names are approved trivially,
(b) missing required parameters reject with the specific reason,
(c) a known-malicious or `0x000`-prefixed recipient rejects,
(d) with call data longer than 2 characters present the contract-safety
check trusts only a `0xsafe` recipient prefix, rejects `selfdestruct`
data as dangerous and everything else as unverifiable, and (e) a
present value above 1000 rejects, else the action is approved — for
every action that does not carry call data without a recipient address
(there the evaluator throws instead). -/
theorem evaluateBlockchainAction_spec (a : CandidateAction)
    (hsafe : (strTruthy a.params.data && decide (jsLen (getStrD a.params.data) > 2)) = true →
      a.params.to_.isSome = true) :
    (Ethics.isBlockchainAction a = false →
      Ethics.evaluateBlockchainAction a =
        .ok { approved := true, reason := "Not a blockchain action" }) ∧
    (Ethics.isBlockchainAction a = true → (Ethics.validateActionParams a).valid = false →
      Ethics.evaluateBlockchainAction a =
        .ok { approved := false, reason := (Ethics.validateActionParams a).reason }) ∧
    (Ethics.isBlockchainAction a = true → (Ethics.validateActionParams a).valid = true →
      strTruthy a.params.to_ = true →
      (Ethics.checkAddress (getStrD a.params.to_)).category = "malicious" →
      Ethics.evaluateBlockchainAction a =
        .ok { approved := false
              reason := "Malicious recipient address: " ++
                (Ethics.checkAddress (getStrD a.params.to_)).reason }) ∧
    (Ethics.isBlockchainAction a = true → (Ethics.validateActionParams a).valid = true →
      strTruthy a.params.to_ = true →
      (Ethics.checkAddress (getStrD a.params.to_)).category = "suspicious" →
      Ethics.evaluateBlockchainAction a =
        .ok { approved := false
              reason := "Suspicious recipient address: " ++
                (Ethics.checkAddress (getStrD a.params.to_)).reason }) ∧
    (Ethics.isBlockchainAction a = true → (Ethics.validateActionParams a).valid = true →
      addrStepPasses a →
      (strTruthy a.params.data && decide (jsLen (getStrD a.params.data) > 2)) = true →
      (jsStartsWith (getStrD a.params.to_) "0xsafe" = true →
        Ethics.evaluateBlockchainAction a = Ethics.valueStep a) ∧
      (jsStartsWith (getStrD a.params.to_) "0xsafe" = false →
        jsIncludes (getStrD a.params.data) "selfdestruct" = true →
        Ethics.evaluateBlockchainAction a =
          .ok { approved := false
                reason := "Unsafe contract interaction: Contract interaction includes dangerous operations (selfdestruct)." }) ∧
      (jsStartsWith (getStrD a.params.to_) "0xsafe" = false →
        jsIncludes (getStrD a.params.data) "selfdestruct" = false →
        Ethics.evaluateBlockchainAction a =
          .ok { approved := false
                reason := "Unsafe contract interaction: Contract safety could not be verified." })) ∧
    (Ethics.isBlockchainAction a = true → (Ethics.validateActionParams a).valid = true →
      addrStepPasses a →
      (strTruthy a.params.data && decide (jsLen (getStrD a.params.data) > 2)) = false →
      Ethics.evaluateBlockchainAction a = Ethics.valueStep a) ∧
    (numGt a.params.value 1000 = true →
      Ethics.valueStep a =
        .ok (Ethics.checkTransactionValue (getNumD a.params.value) a.params.token) ∧
      (Ethics.checkTransactionValue (getNumD a.params.value) a.params.token).approved = false) ∧
    (numGt a.params.value 1000 = false →
      Ethics.valueStep a =
        .ok { approved := true, reason := "Blockchain action passed all ethical checks" }) := by
  have haddr_neg : ∀ _ : addrStepPasses a,
      (strTruthy a.params.to_ &&
        ((Ethics.checkAddress (getStrD a.params.to_)).category == "malicious")) = false ∧
      (strTruthy a.params.to_ &&
        ((Ethics.checkAddress (getStrD a.params.to_)).category == "suspicious")) = false := by
    intro hpass
    cases hpass with
    | inl h => simp [h]
    | inr h => simp [h.1, h.2]
  refine ⟨fun hib => ?_, fun hib hval => ?_, fun hib hval hto hmal => ?_,
    fun hib hval hto hsus => ?_, fun hib hval hpass hdata => ?_,
    fun hib hval hpass hdata => ?_, fun hgt => ?_, fun hle => ?_⟩
  · unfold Ethics.evaluateBlockchainAction
    rw [if_pos (by simp [hib])]
  · unfold Ethics.evaluateBlockchainAction
    rw [if_neg (by simp [hib]), if_pos (by simp [hval])]
  · unfold Ethics.evaluateBlockchainAction
    rw [if_neg (by simp [hib]), if_neg (by simp [hval]), if_pos (by simp [hto, hmal])]
  · unfold Ethics.evaluateBlockchainAction
    rw [if_neg (by simp [hib]), if_neg (by simp [hval]),
      if_neg (by simp [hto, hsus]), if_pos (by simp [hto, hsus])]
  · obtain ⟨hm, hs⟩ := haddr_neg hpass
    obtain ⟨t, ht⟩ := Option.isSome_iff_exists.mp (hsafe hdata)
    have hgd : getStrD a.params.to_ = t := by rw [ht]; rfl
    refine ⟨fun hsw => ?_, fun hsw hsd => ?_, fun hsw hsd => ?_⟩ <;>
      rw [hgd] at hsw <;>
      unfold Ethics.evaluateBlockchainAction <;>
      rw [if_neg (by simp [hib]), if_neg (by simp [hval]), if_neg (by simp [hm]),
        if_neg (by simp [hs]), if_pos hdata, ht] <;>
      simp only [Ethics.checkContractSafety]
    · rw [if_pos hsw]
      rfl
    · rw [if_neg (by simp [hsw]), if_pos hsd]
      rfl
    · rw [if_neg (by simp [hsw]), if_neg (by simp [hsd])]
      rfl
  · obtain ⟨hm, hs⟩ := haddr_neg hpass
    unfold Ethics.evaluateBlockchainAction
    rw [if_neg (by simp [hib]), if_neg (by simp [hval]), if_neg (by simp [hm]),
      if_neg (by simp [hs]), if_neg (by simp [hdata])]
  · obtain ⟨v, hv, hlt⟩ : ∃ v, a.params.value = some v ∧ 1000 < v := by
      unfold numGt at hgt
      cases hval : a.params.value with
      | none => rw [hval] at hgt; exact absurd hgt (by simp)
      | some v => rw [hval] at hgt; exact ⟨v, rfl, of_decide_eq_true hgt⟩
    have hnt : numTruthy a.params.value = true := by
      rw [hv]
      unfold numTruthy
      simp only [bne_iff_ne, ne_eq, decide_eq_true_eq]
      intro h0
      rw [h0] at hlt
      norm_num at hlt
    have hcv : (Ethics.checkTransactionValue (getNumD a.params.value) a.params.token).approved
        = false := by
      unfold Ethics.checkTransactionValue
      rw [hv]
      rw [if_pos (show getNumD (some v) > 1000 from hlt)]
    refine ⟨?_, hcv⟩
    unfold Ethics.valueStep
    rw [if_pos (by simp [hnt, hcv])]
  · unfold Ethics.valueStep
    cases hval : a.params.value with
    | none =>
      rw [if_neg (by simp [numTruthy])]
    | some v =>
      have hnlt : ¬ (1000 : ℚ) < v := by
        have h' := hle
        rw [hval] at h'
        simpa [numGt] using h'
      have happ : (Ethics.checkTransactionValue (getNumD (some v)) a.params.token).approved
          = true := by
        unfold Ethics.checkTransactionValue
        rw [if_neg (show ¬ getNumD (some v) > 1000 from hnlt)]
      rw [if_neg (by simp [happ])]

/-- C4 witness: `transferToken` with empty parameters is rejected with
the missing-parameter reason, independent of the other checks. -/
theorem evaluateBlockchainAction_spec_witness :
    Ethics.evaluateBlockchainAction { action := "transferToken" } =
      .ok { approved := false
            reason := "Missing token transfer parameters (token, recipient, or amount)" } :=
  (evaluateBlockchainAction_spec { action := "transferToken" } (by decide)).2.1 rfl rfl

/-- C5 counterexample: classification is not total — on a `null` raw
value the classifier throws a TypeError reading `data.hash` instead of
defaulting to the unknown category, and the whole pipeline propagates
the wrapped failure. -/
theorem detectDataType_null_counterexample :
    Layers.detectDataType none = .error "TypeError: cannot read hash of null" ∧
    Pipeline.carPipeline none none 0 =
      .error ("Pipeline failed: TypeError: cannot read hash of null") ∧
    (Layers.detectDataType none).toOption = none := ⟨rfl, rfl, rfl⟩

/-- A message-classified raw value yields a structured record whose
`content` field is present. -/
theorem message_content_isSome (d : JSObj) (ctx : Option Context) (now : ℚ)
    (h : Layers.detectDataTypeCore d = "message") :
    (Layers.structureData d "message" ctx now).content.isSome = true := by
  have hcm : (strTruthy d.content || strTruthy d.message) = true := by
    unfold Layers.detectDataTypeCore at h
    by_cases h1 : (strTruthy d.hash && strTruthy d.from_ && strTruthy d.to_) = true
    · rw [if_pos h1] at h
      exact absurd h (by decide)
    · rw [if_neg h1] at h
      by_cases h2 : (strTruthy d.content || strTruthy d.message) = true
      · exact h2
      · rw [if_neg h2] at h
        by_cases h3 : strTruthy d.event = true
        · rw [if_pos h3] at h
          exact absurd h (by decide)
        · rw [if_neg h3] at h
          by_cases h4 : (d.inputType == some "user") = true
          · rw [if_pos h4] at h
            exact absurd h (by decide)
          · rw [if_neg h4] at h
            exact absurd h (by decide)
  have heq : (Layers.structureData d "message" ctx now).content =
      jsOrStr d.content d.message := rfl
  rw [heq]
  unfold jsOrStr
  by_cases hc : strTruthy d.content = true
  · rw [if_pos hc]
    cases hcc : d.content with
    | none => rw [hcc] at hc; exact absurd hc (by simp [strTruthy])
    | some s => simp
  · rw [if_neg hc]
    have hm : strTruthy d.message = true := by
      simp only [Bool.or_eq_true] at hcm
      cases hcm with
      | inl hx => exact absurd hx hc
      | inr hx => exact hx
    cases hmm : d.message with
    | none => rw [hmm] at hm; exact absurd hm (by simp [strTruthy])
    | some s => simp

/-- An action that is not a `respondToMessage`, or that carries a
`content` parameter, passes both per-action checks without throwing. -/
theorem ethicalChecks_ok (a : CandidateAction)
    (h : (a.action == "respondToMessage") = false ∨ a.params.content.isSome = true) :
    (∃ r, Layers.categoricalImperative a = .ok r) ∧
    (∃ f, Layers.checkEpistemicBoundaries a = .ok f) := by
  have hc : a.action = "respondToMessage" → a.params.content.isSome = true := by
    cases h with
    | inl hb => intro hx; exact absurd hx (by simpa using hb)
    | inr hs => intro _; exact hs
  obtain ⟨u, h2, k, hu, hh, hk, hmain, _⟩ := categoricalImperative_cases a hc
  refine ⟨⟨_, hmain⟩, ?_⟩
  unfold Layers.checkEpistemicBoundaries
  by_cases h1 : (a.action == "executeTransaction" && numGt a.params.value 1000) = true
  · rw [if_pos h1]
    exact ⟨_, rfl⟩
  · rw [if_neg h1]
    by_cases h2 : (a.action == "respondToMessage") = true
    · rw [if_pos h2]
      obtain ⟨c, hcc⟩ := Option.isSome_iff_exists.mp (hc (by simpa using h2))
      rw [hcc]
      show ∃ f, (if decide (jsLen c > 500) = true then
          Except.ok { uncertain := true, reason := "Long responses may exceed knowledge boundaries" }
        else Except.ok ({ uncertain := false, reason := "" } : UncertaintyFlag)) = .ok f
      by_cases hlen : (decide (jsLen c > 500)) = true
      · rw [if_pos hlen]
        exact ⟨_, rfl⟩
      · rw [if_neg hlen]
        exact ⟨_, rfl⟩
    · rw [if_neg h2]
      exact ⟨_, rfl⟩

/-- The critique loop returns a result whenever every action in the
list avoids the missing-`content` crash. -/
theorem critiqueLoop_ok (l : List CandidateAction)
    (h : ∀ a ∈ l, (a.action == "respondToMessage") = false ∨ a.params.content.isSome = true) :
    ∃ res, Layers.critiqueLoop l = .ok res := by
  induction l with
  | nil => exact ⟨_, rfl⟩
  | cons a rest ih =>
    obtain ⟨⟨r, hr⟩, ⟨f, hf⟩⟩ := ethicalChecks_ok a (h a (by simp))
    obtain ⟨res, hres⟩ := ih (fun b hb => h b (by simp [hb]))
    obtain ⟨ap, rj, lim, unc, expl⟩ := res
    simp only [Layers.critiqueLoop, Bind.bind, Except.bind, hr, hf, hres]
    cases hra : r.approved <;> simp [hra]

/-- Every action the proposer emits either is not a `respondToMessage`
or carries a generated `content` string. -/
theorem reason_actions_safe (u : UnderstandingOutput) :
    ∀ a ∈ (Layers.reasonLayer u).proposedActions,
      (a.action == "respondToMessage") = false ∨ a.params.content.isSome = true := by
  intro a ha
  unfold Layers.reasonLayer at ha
  by_cases h1 : (u.metadata.dataType == "transaction") = true
  · rw [if_pos h1] at ha
    simp only [List.mem_append, List.mem_singleton] at ha
    rcases ha with ((rfl | hx) | rfl) | hx
    · left; rfl
    · by_cases hcnd : numGt u.categorizedData.value 0 = true
      · rw [if_pos hcnd] at hx
        simp only [List.mem_singleton] at hx
        subst hx
        left; rfl
      · rw [if_neg hcnd] at hx
        exact absurd hx (List.not_mem_nil a)
    · left; rfl
    · by_cases hcnd : (u.categorizedData.risk == some "high") = true
      · rw [if_pos hcnd] at hx
        simp only [List.mem_singleton] at hx
        subst hx
        left; rfl
      · rw [if_neg hcnd] at hx
        exact absurd hx (List.not_mem_nil a)
  · rw [if_neg h1] at ha
    by_cases h2 : (u.metadata.dataType == "message") = true
    · rw [if_pos h2] at ha
      simp only [List.mem_append, List.mem_singleton] at ha
      rcases ha with rfl | hx
      · right; rfl
      · by_cases hcnd : (u.categorizedData.intent == some "question") = true
        · rw [if_pos hcnd] at hx
          simp only [List.mem_singleton] at hx
          subst hx
          left; rfl
        · rw [if_neg hcnd] at hx
          exact absurd hx (List.not_mem_nil a)
    · rw [if_neg h2] at ha
      by_cases h3 : (u.metadata.dataType == "event") = true
      · rw [if_pos h3] at ha
        simp only [List.mem_singleton] at ha
        subst ha
        left; rfl
      · rw [if_neg h3] at ha
        exact absurd ha (List.not_mem_nil a)

/-- The understanding layer returns a result on every record the
sensibility layer produces. -/
theorem understandingLayer_ok (d : JSObj) (ctx : Option Context) (now : ℚ)
    (u : UnderstandingOutput)
    (hs : Layers.sensibilityLayer { rawData := some d, context := ctx } now = .ok u) :
    ∃ u', Layers.understandingLayer u = .ok u' := by
  have hu : u = { categorizedData := Layers.structureData d (Layers.detectDataTypeCore d) ctx now
                  metadata := { dataType := Layers.detectDataTypeCore d
                                source := Layers.detectSource d, timestamp := now } } :=
    (Except.ok.inj hs).symm
  subst hu
  unfold Layers.understandingLayer
  dsimp only
  by_cases h1 : (Layers.detectDataTypeCore d == "transaction") = true
  · rw [if_pos h1]
    exact ⟨_, rfl⟩
  · rw [if_neg h1]
    by_cases h2 : (Layers.detectDataTypeCore d == "message") = true
    · rw [if_pos h2]
      have hmsg : Layers.detectDataTypeCore d = "message" := by simpa using h2
      rw [hmsg]
      obtain ⟨c, hcc⟩ := Option.isSome_iff_exists.mp
        (message_content_isSome d ctx now hmsg)
      unfold Layers.detectIntent Layers.analyzeSentiment
      rw [hcc]
      simp only [Bind.bind, Except.bind]
      exact ⟨_, rfl⟩
    · rw [if_neg h2]
      by_cases h3 : (Layers.detectDataTypeCore d == "event") = true
      · rw [if_pos h3]
        exact ⟨_, rfl⟩
      · rw [if_neg h3]
        exact ⟨_, rfl⟩

/-- C5 (amended): on every non-null object input the full pipeline is
total — classification, normalization, enrichment, proposal, critique
and confidence computation all return a result; the two exceptions of
the source (classification of a null raw value, and the Specialized
Domain Evaluator on call data without a recipient) are the only throw
sites. -/
theorem carPipeline_total (d : JSObj) (ctx : Option Context) (now : ℚ) :
    ∃ out, Pipeline.carPipeline (some d) ctx now = .ok out := by
  have hs : Layers.sensibilityLayer { rawData := some d, context := ctx } now =
      .ok { categorizedData := Layers.structureData d (Layers.detectDataTypeCore d) ctx now
            metadata := { dataType := Layers.detectDataTypeCore d
                          source := Layers.detectSource d, timestamp := now } } := rfl
  obtain ⟨u', hu⟩ := understandingLayer_ok d ctx now _ hs
  obtain ⟨res, hres⟩ := critiqueLoop_ok (Layers.reasonLayer u').proposedActions
    (reason_actions_safe u')
  obtain ⟨ap, rj, lim, unc, expl⟩ := res
  have hc : Layers.critiqueLayer (Layers.reasonLayer u') =
      .ok { confidence := Layers.calculateConfidence ap rj unc
            limitations := lim
            uncertainties := unc
            approvedActions := ap
            rejectedActions := rj
            explanation := (Layers.reasonLayer u').reasoning ++ "\n" ++ expl ++
              "\nConfidence: " ++ toString (Layers.calculateConfidence ap rj unc) } := by
    unfold Layers.critiqueLayer
    rw [hres]
    rfl
  exact ⟨_, carPipeline_ok (some d) ctx now _ u' _ hs hu hc⟩

/-- Agreement of two records on every field the Enricher does not
derive (all fields other than transactionType, risk, intent, sentiment
and eventCategory). -/
def baseAgrees (x y : JSObj) : Prop :=
  x.hash = y.hash ∧ x.from_ = y.from_ ∧ x.to_ = y.to_ ∧ x.value = y.value ∧
  x.data = y.data ∧ x.gas = y.gas ∧ x.chainId = y.chainId ∧ x.content = y.content ∧
  x.message = y.message ∧ x.event = y.event ∧ x.inputType = y.inputType ∧
  x.input = y.input ∧ x.source = y.source ∧ x.timestamp = y.timestamp ∧
  x.parameters = y.parameters ∧ x.blockNumber = y.blockNumber ∧
  x.transactionHash = y.transactionHash ∧ x.type_ = y.type_ ∧
  x.previousTxs = y.previousTxs ∧ x.sender = y.sender ∧
  x.conversationHistory = y.conversationHistory ∧ x.eventName = y.eventName

/-- C8: on every record the Normalizer produces, the Enricher returns a
record that agrees with its input on every field already present (it
never mutates or overwrites an existing field) and only adds the
category-specific derived fields, each a pure function of the input
record: transactionType/risk for transaction, intent/sentiment for
message, eventCategory for event, and nothing for userInput/unknown. -/
theorem understanding_enrichment_spec (d : JSObj) (ctx : Option Context) (now : ℚ)
    (u : UnderstandingOutput)
    (hs : Layers.sensibilityLayer { rawData := some d, context := ctx } now = .ok u) :
    ∃ e, Layers.understandingLayer u = .ok e ∧
      e.metadata = u.metadata ∧
      baseAgrees e.categorizedData u.categorizedData ∧
      (u.metadata.dataType = "transaction" →
        e.categorizedData.transactionType =
          some (Layers.categorizeTransaction u.categorizedData) ∧
        e.categorizedData.risk = some (Layers.assessRisk u.categorizedData) ∧
        e.categorizedData.intent = u.categorizedData.intent ∧
        e.categorizedData.sentiment = u.categorizedData.sentiment ∧
        e.categorizedData.eventCategory = u.categorizedData.eventCategory) ∧
      (u.metadata.dataType = "message" →
        (∃ iv sv, Layers.detectIntent u.categorizedData = .ok iv ∧
          Layers.analyzeSentiment u.categorizedData = .ok sv ∧
          e.categorizedData.intent = some iv ∧ e.categorizedData.sentiment = some sv) ∧
        e.categorizedData.transactionType = u.categorizedData.transactionType ∧
        e.categorizedData.risk = u.categorizedData.risk ∧
        e.categorizedData.eventCategory = u.categorizedData.eventCategory) ∧
      (u.metadata.dataType = "event" →
        e.categorizedData.eventCategory = some (Layers.categorizeEvent u.categorizedData) ∧
        e.categorizedData.transactionType = u.categorizedData.transactionType ∧
        e.categorizedData.risk = u.categorizedData.risk ∧
        e.categorizedData.intent = u.categorizedData.intent ∧
        e.categorizedData.sentiment = u.categorizedData.sentiment) ∧
      (u.metadata.dataType ≠ "transaction" → u.metadata.dataType ≠ "message" →
        u.metadata.dataType ≠ "event" → e = u) := by
  obtain ⟨e, he⟩ := understandingLayer_ok d ctx now u hs
  refine ⟨e, he, ?_⟩
  have hu : u = { categorizedData := Layers.structureData d (Layers.detectDataTypeCore d) ctx now
                  metadata := { dataType := Layers.detectDataTypeCore d
                                source := Layers.detectSource d, timestamp := now } } :=
    (Except.ok.inj hs).symm
  subst hu
  unfold Layers.understandingLayer at he
  dsimp only at he ⊢
  by_cases h1 : (Layers.detectDataTypeCore d == "transaction") = true
  · have hcore : Layers.detectDataTypeCore d = "transaction" := by simpa using h1
    rw [if_pos h1] at he
    have he' : _ = e := Except.ok.inj he
    subst he'
    refine ⟨rfl, by simp [baseAgrees], fun _ => ⟨rfl, rfl, rfl, rfl, rfl⟩,
      fun hm => ?_, fun hm => ?_, fun hne _ _ => ?_⟩
    · rw [hcore] at hm
      exact absurd hm (by decide)
    · rw [hcore] at hm
      exact absurd hm (by decide)
    · rw [hcore] at hne
      exact absurd rfl hne
  · rw [if_neg h1] at he
    have hne1 : Layers.detectDataTypeCore d ≠ "transaction" := by simpa using h1
    by_cases h2 : (Layers.detectDataTypeCore d == "message") = true
    · have hcore : Layers.detectDataTypeCore d = "message" := by simpa using h2
      rw [if_pos h2] at he
      rw [hcore] at he ⊢
      obtain ⟨c, hcc⟩ := Option.isSome_iff_exists.mp
        (message_content_isSome d ctx now hcore)
      unfold Layers.detectIntent Layers.analyzeSentiment at he ⊢
      rw [hcc] at he ⊢
      simp only [Bind.bind, Except.bind] at he
      have he' : _ = e := Except.ok.inj he
      subst he'
      refine ⟨rfl, by simp [baseAgrees, hcc], fun hm => ?_,
        fun _ => ⟨⟨_, _, rfl, rfl, rfl, rfl⟩, rfl, rfl, rfl⟩, fun hm => ?_,
        fun _ hne _ => ?_⟩
      · exact absurd hm (by decide)
      · exact absurd hm (by decide)
      · exact absurd rfl hne
    · rw [if_neg h2] at he
      have hne2 : Layers.detectDataTypeCore d ≠ "message" := by simpa using h2
      by_cases h3 : (Layers.detectDataTypeCore d == "event") = true
      · have hcore : Layers.detectDataTypeCore d = "event" := by simpa using h3
        rw [if_pos h3] at he
        have he' : _ = e := Except.ok.inj he
        subst he'
        refine ⟨rfl, by simp [baseAgrees], fun hm => ?_, fun hm => ?_,
          fun _ => ⟨rfl, rfl, rfl, rfl, rfl⟩, fun _ _ hne => ?_⟩
        · rw [hcore] at hm
          exact absurd hm (by decide)
        · rw [hcore] at hm
          exact absurd hm (by decide)
        · rw [hcore] at hne
          exact absurd rfl hne
      · rw [if_neg h3] at he
        have hne3 : Layers.detectDataTypeCore d ≠ "event" := by simpa using h3
        have he' : _ = e := Except.ok.inj he
        subst he'
        exact ⟨rfl, by simp [baseAgrees], fun hm => absurd hm hne1,
          fun hm => absurd hm hne2, fun hm => absurd hm hne3, fun _ _ _ => rfl⟩

/-- The low-risk transaction raw input of the scenario claims
(`{hash:"0x1", from:"0xA", to:"0xB", value:1.5, data:"0x", chainId:"1"}`). -/
def c6Input : JSObj :=
  { hash := some "0x1", from_ := some "0xA", to_ := some "0xB"
    value := some ⟨3, 2, by decide, by decide⟩
    data := some "0x", chainId := some "1" }

/-- The structured form of `c6Input` (at clock reading 0). -/
def c6U : UnderstandingOutput :=
  { categorizedData :=
      { hash := some "0x1", from_ := some "0xA", to_ := some "0xB"
        value := some ⟨3, 2, by decide, by decide⟩
        data := some "0x", chainId := some "1", previousTxs := some [] }
    metadata := { dataType := "transaction", source := "Ethereum", timestamp := 0 } }

/-- The enriched form of `c6U`. -/
def c6E : UnderstandingOutput :=
  { categorizedData :=
      { hash := some "0x1", from_ := some "0xA", to_ := some "0xB"
        value := some ⟨3, 2, by decide, by decide⟩
        data := some "0x", chainId := some "1", previousTxs := some []
        transactionType := some "value-transfer", risk := some "low" }
    metadata := { dataType := "transaction", source := "Ethereum", timestamp := 0 } }

/-- C8 witness: on the structured transaction record of the scenario
input, the Enricher adds transactionType and risk and passes every
other field through unchanged. -/
theorem understanding_enrichment_spec_witness :
    Layers.sensibilityLayer { rawData := some c6Input, context := none } 0 = .ok c6U ∧
    Layers.understandingLayer c6U = .ok c6E ∧
    c6E.metadata = c6U.metadata ∧
    baseAgrees c6E.categorizedData c6U.categorizedData := by
  obtain ⟨e, he, hm, hb, _⟩ := understanding_enrichment_spec c6Input none 0 c6U rfl
  have hcomp : Layers.understandingLayer c6U = .ok c6E := rfl
  rw [hcomp] at he
  have he' : c6E = e := Except.ok.inj he
  subst he'
  exact ⟨rfl, hcomp, hm, hb⟩

/-- The contextual response generator returns one of exactly four fixed
template strings. -/
theorem generateContextualResponse_cases (data : JSObj) :
    Layers.generateContextualResponse data =
        "Hello! How can I assist you with blockchain or AI tasks?" ∨
      Layers.generateContextualResponse data =
        "Let me look that up for you. I\x27ll respond shortly." ∨
      Layers.generateContextualResponse data =
        "I can assist with blockchain transactions. Please provide more details." ∨
      Layers.generateContextualResponse data =
        "Thank you for your message. I\x27ll process it accordingly." := by
  unfold Layers.generateContextualResponse
  split_ifs
  · exact Or.inl rfl
  · exact Or.inr (Or.inl rfl)
  · exact Or.inr (Or.inr (Or.inl rfl))
  · exact Or.inr (Or.inr (Or.inr rfl))

/-- A `respondToMessage` action whose content is short and free of the
flagged substrings is approved by all three sub-tests and not flagged
as uncertain. -/
theorem respond_action_checks (s : String) (p : ActionParams) (j : String)
    (hp : p.content = some s)
    (h1 : jsIncludes s "mislead" = false) (h2 : jsIncludes s "manipulate" = false)
    (h3 : jsIncludes s "hate speech" = false)
    (h4 : decide (jsLen s > 500) = false) :
    Layers.categoricalImperative { action := "respondToMessage", params := p, justification := j } =
      .ok { approved := true
            reason := "Action passes all three formulations of the categorical imperative" } ∧
    Layers.checkEpistemicBoundaries
      { action := "respondToMessage", params := p, justification := j } =
      .ok { uncertain := false, reason := "" } := by
  have hu : Layers.universalizabilityTest
      { action := "respondToMessage", params := p, justification := j } =
      .ok { passes := true, reason := "Action can be universalized" } := by
    have hm : Layers.universalizabilityTest
        { action := "respondToMessage", params := p, justification := j } =
        (match p.content with
         | none => .error "TypeError: cannot read includes of undefined"
         | some c =>
           if jsIncludes c "mislead" then
             .ok { passes := false
                   reason := "A system where AI agents mislead users cannot be universalized" }
           else .ok { passes := true, reason := "Action can be universalized" }) := rfl
    rw [hm, hp]
    simp [h1]
  have hh : Layers.humanityAsEndTest
      { action := "respondToMessage", params := p, justification := j } =
      .ok { passes := true, reason := "Action respects humanity as an end" } := by
    have hm : Layers.humanityAsEndTest
        { action := "respondToMessage", params := p, justification := j } =
        (match p.content with
         | none => .error "TypeError: cannot read includes of undefined"
         | some c =>
           if jsIncludes c "manipulate" then
             .ok { passes := false
                   reason := "Manipulative responses treat users as means to an end" }
           else .ok { passes := true, reason := "Action respects humanity as an end" }) := rfl
    rw [hm, hp]
    simp [h2]
  have hk : Layers.kingdomOfEndsTest
      { action := "respondToMessage", params := p, justification := j } =
      .ok { passes := true, reason := "Action is compatible with a moral community" } := by
    have hm : Layers.kingdomOfEndsTest
        { action := "respondToMessage", params := p, justification := j } =
        (match p.content with
         | none => .error "TypeError: cannot read includes of undefined"
         | some c =>
           if jsIncludes c "hate speech" then
             .ok { passes := false
                   reason := "Hate speech is incompatible with a kingdom of ends" }
           else .ok { passes := true, reason := "Action is compatible with a moral community" }) := rfl
    rw [hm, hp]
    simp [h3]
  constructor
  · simp [Layers.categoricalImperative, hu, hh, hk, Bind.bind, Except.bind,
      Pure.pure, Except.pure]
  · have hm : Layers.checkEpistemicBoundaries
        { action := "respondToMessage", params := p, justification := j } =
        (match p.content with
         | none => .error "TypeError: cannot read length of undefined"
         | some c =>
           if decide (jsLen c > 500) then
             .ok { uncertain := true, reason := "Long responses may exceed knowledge boundaries" }
           else .ok { uncertain := false, reason := "" }) := rfl
    rw [hm, hp]
    simp [h4]

/-- C10: every `respondToMessage` candidate the proposer emits carries
one of the four fixed template strings of the response generator as its
content; each template is shorter than 500 characters and contains none
of the flagged substrings, so the candidate is ethically approved with
the fixed reason and never flagged as epistemically uncertain. -/
theorem respondToMessage_always_safe (u : UnderstandingOutput) (a : CandidateAction)
    (ha : a ∈ (Layers.reasonLayer u).proposedActions)
    (hr : a.action = "respondToMessage") :
    a.params.content = some (Layers.generateContextualResponse u.categorizedData) ∧
    (Layers.generateContextualResponse u.categorizedData =
        "Hello! How can I assist you with blockchain or AI tasks?" ∨
      Layers.generateContextualResponse u.categorizedData =
        "Let me look that up for you. I\x27ll respond shortly." ∨
      Layers.generateContextualResponse u.categorizedData =
        "I can assist with blockchain transactions. Please provide more details." ∨
      Layers.generateContextualResponse u.categorizedData =
        "Thank you for your message. I\x27ll process it accordingly.") ∧
    jsLen (Layers.generateContextualResponse u.categorizedData) < 500 ∧
    jsIncludes (Layers.generateContextualResponse u.categorizedData) "mislead" = false ∧
    jsIncludes (Layers.generateContextualResponse u.categorizedData) "manipulate" = false ∧
    jsIncludes (Layers.generateContextualResponse u.categorizedData) "hate speech" = false ∧
    Layers.categoricalImperative a =
      .ok { approved := true
            reason := "Action passes all three formulations of the categorical imperative" } ∧
    Layers.checkEpistemicBoundaries a = .ok { uncertain := false, reason := "" } := by
  have hfour := generateContextualResponse_cases u.categorizedData
  have hsafe : jsLen (Layers.generateContextualResponse u.categorizedData) < 500 ∧
      jsIncludes (Layers.generateContextualResponse u.categorizedData) "mislead" = false ∧
      jsIncludes (Layers.generateContextualResponse u.categorizedData) "manipulate" = false ∧
      jsIncludes (Layers.generateContextualResponse u.categorizedData) "hate speech" = false := by
    rcases hfour with h | h | h | h <;> rw [h] <;> exact ⟨by decide, by decide, by decide, by decide⟩
  have haeq : a = { action := "respondToMessage"
                    params := { content := some (Layers.generateContextualResponse u.categorizedData)
                                context := some u.categorizedData }
                    justification := "Generated response based on intent, sentiment, and history" } := by
    unfold Layers.reasonLayer at ha
    by_cases h1 : (u.metadata.dataType == "transaction") = true
    · rw [if_pos h1] at ha
      simp only [List.mem_append, List.mem_singleton] at ha
      rcases ha with ((rfl | hx) | rfl) | hx
      · simp at hr
      · by_cases hcnd : numGt u.categorizedData.value 0 = true
        · rw [if_pos hcnd] at hx
          simp only [List.mem_singleton] at hx
          subst hx
          simp at hr
        · rw [if_neg hcnd] at hx
          exact absurd hx (List.not_mem_nil a)
      · simp at hr
      · by_cases hcnd : (u.categorizedData.risk == some "high") = true
        · rw [if_pos hcnd] at hx
          simp only [List.mem_singleton] at hx
          subst hx
          simp at hr
        · rw [if_neg hcnd] at hx
          exact absurd hx (List.not_mem_nil a)
    · rw [if_neg h1] at ha
      by_cases h2 : (u.metadata.dataType == "message") = true
      · rw [if_pos h2] at ha
        simp only [List.mem_append, List.mem_singleton] at ha
        rcases ha with rfl | hx
        · rfl
        · by_cases hcnd : (u.categorizedData.intent == some "question") = true
          · rw [if_pos hcnd] at hx
            simp only [List.mem_singleton] at hx
            subst hx
            simp at hr
          · rw [if_neg hcnd] at hx
            exact absurd hx (List.not_mem_nil a)
      · rw [if_neg h2] at ha
        by_cases h3 : (u.metadata.dataType == "event") = true
        · rw [if_pos h3] at ha
          simp only [List.mem_singleton] at ha
          subst ha
          simp at hr
        · rw [if_neg h3] at ha
          exact absurd ha (List.not_mem_nil a)
  subst haeq
  obtain ⟨hlen, hm1, hm2, hm3⟩ := hsafe
  have hchecks := respond_action_checks (Layers.generateContextualResponse u.categorizedData)
    { content := some (Layers.generateContextualResponse u.categorizedData)
      context := some u.categorizedData }
    "Generated response based on intent, sentiment, and history"
    rfl hm1 hm2 hm3 (by simp only [decide_eq_false_iff_not]; omega)
  exact ⟨rfl, hfour, hlen, hm1, hm2, hm3, hchecks.1, hchecks.2⟩

/-- A raw chat message carrying only a `message` field. -/
def mInput : JSObj := { message := some "hello friend" }

/-- The enriched understanding output for `mInput` at clock reading 0. -/
def mE : UnderstandingOutput :=
  { categorizedData :=
      { content := some "hello friend", timestamp := some 0
        conversationHistory := some []
        intent := some "greeting", sentiment := some "neutral" }
    metadata := { dataType := "message", source := "unknown", timestamp := 0 } }

/-- The `respondToMessage` candidate the proposer emits for `mE`. -/
def mRespond : CandidateAction :=
  { action := "respondToMessage"
    params := { content := some "Hello! How can I assist you with blockchain or AI tasks?"
                context := some mE.categorizedData }
    justification := "Generated response based on intent, sentiment, and history" }

/-- C10 witness: the respond candidate for a greeting message is
proposed, ethically approved with the fixed reason, and not flagged as
uncertain. -/
theorem respondToMessage_always_safe_witness :
    mRespond ∈ (Layers.reasonLayer mE).proposedActions ∧
    Layers.categoricalImperative mRespond =
      .ok { approved := true
            reason := "Action passes all three formulations of the categorical imperative" } ∧
    Layers.checkEpistemicBoundaries mRespond = .ok { uncertain := false, reason := "" } := by
  have hmem : mRespond ∈ (Layers.reasonLayer mE).proposedActions := by decide
  have h := respondToMessage_always_safe mE mRespond hmem rfl
  exact ⟨hmem, h.2.2.2.2.2.2.1, h.2.2.2.2.2.2.2⟩

/-- Extract the critique record of a successful pipeline run. -/
def okOr (e : Except String CritiqueOutput) : CritiqueOutput :=
  match e with
  | .ok o => o
  | .error _ =>
    { confidence := 0, limitations := [], uncertainties := [],
      approvedActions := [], rejectedActions := [], explanation := "" }

/-- The critique record of the full pipeline on the scenario
transaction. -/
def c6Out : CritiqueOutput := okOr (Pipeline.carPipeline (some c6Input) none 0)

/-- C6 counterexample: on the scenario transaction the proposer emits
`executeTransaction` before `checkGasPrice`, not the claimed order
verifyRecipient, checkGasPrice, executeTransaction. -/
theorem transaction_scenario_counterexample :
    (Layers.reasonLayer c6E).proposedActions.map CandidateAction.action ≠
      ["verifyRecipient", "checkGasPrice", "executeTransaction"] ∧
    (Layers.reasonLayer c6E).proposedActions.map CandidateAction.action =
      ["verifyRecipient", "executeTransaction", "checkGasPrice"] :=
  ⟨by decide, rfl⟩

/-- C6 (amended): the scenario transaction is classified transaction
with risk low, the proposer emits exactly verifyRecipient,
executeTransaction, checkGasPrice in that order (executeTransaction
because value > 0, and no monitorTransaction because risk is not high),
all three are approved, nothing is rejected, limited or uncertain,
confidence is exactly 1, and the boundary decision at threshold 0.7 is
shouldDefer = false. -/
theorem transaction_scenario :
    c6Input.value = some (1.5 : ℚ) ∧
    Layers.detectDataTypeCore c6Input = "transaction" ∧
    Layers.sensibilityLayer { rawData := some c6Input, context := none } 0 = .ok c6U ∧
    Layers.understandingLayer c6U = .ok c6E ∧
    c6E.categorizedData.risk = some "low" ∧
    (Layers.reasonLayer c6E).proposedActions.map CandidateAction.action =
      ["verifyRecipient", "executeTransaction", "checkGasPrice"] ∧
    Pipeline.carPipeline (some c6Input) none 0 = .ok c6Out ∧
    c6Out.approvedActions.map CandidateAction.action =
      ["verifyRecipient", "executeTransaction", "checkGasPrice"] ∧
    c6Out.rejectedActions = [] ∧ c6Out.limitations = [] ∧ c6Out.uncertainties = [] ∧
    c6Out.confidence = 1 ∧
    Pipeline.checkEpistemicBoundaries c6Out 0.7 =
      { shouldDefer := false, reason := "Within epistemic boundaries" } := by
  have hc : c6Out.confidence = 1 := by
    rw [show c6Out.confidence = max (0 : ℚ) 1 from rfl]
    exact max_eq_right zero_le_one
  refine ⟨?_, rfl, rfl, rfl, rfl, rfl, rfl, rfl, rfl, rfl, rfl, hc, ?_⟩
  · rw [show c6Input.value = some (⟨3, 2, by decide, by decide⟩ : ℚ) from rfl,
      show (⟨3, 2, by decide, by decide⟩ : ℚ) = 1.5 by
        rw [Rat.mk'_eq_divInt, Rat.divInt_eq_div]; norm_num]
  · have h0 : c6Out.limitations = [] := rfl
    have h1 : c6Out.uncertainties = [] := rfl
    unfold Pipeline.checkEpistemicBoundaries
    rw [hc, h0, h1, if_neg (by norm_num), if_neg (by simp), if_neg (by simp)]

/-- Erase the two record-valued parameters (`context`, `event`) of an
action; these are the only parameter fields that can carry a
clock-dependent timestamp. -/
def stripCtx (a : CandidateAction) : CandidateAction :=
  { a with params := { a.params with context := none, event := none } }

/-- The ethical verdict reads none of the stripped fields. -/
theorem categoricalImperative_stripCtx (a : CandidateAction) :
    Layers.categoricalImperative (stripCtx a) = Layers.categoricalImperative a := rfl

/-- The epistemic flag reads none of the stripped fields. -/
theorem checkEpistemicBoundaries_stripCtx (a : CandidateAction) :
    Layers.checkEpistemicBoundaries (stripCtx a) = Layers.checkEpistemicBoundaries a := rfl

/-- Stripping preserves the action name. -/
theorem action_stripCtx (a : CandidateAction) : (stripCtx a).action = a.action := rfl

/-- Stripped-equal action lists carry the same action names. -/
theorem map_action_of_strip (l l' : List CandidateAction)
    (h : l.map stripCtx = l'.map stripCtx) :
    l.map CandidateAction.action = l'.map CandidateAction.action := by
  have he : (CandidateAction.action ∘ stripCtx) = CandidateAction.action :=
    funext fun a => rfl
  calc l.map CandidateAction.action
      = l.map (CandidateAction.action ∘ stripCtx) := by rw [he]
    _ = (l.map stripCtx).map CandidateAction.action := (List.map_map _ _ _).symm
    _ = (l'.map stripCtx).map CandidateAction.action := by rw [h]
    _ = l'.map (CandidateAction.action ∘ stripCtx) := List.map_map _ _ _
    _ = l'.map CandidateAction.action := by rw [he]

/-- Stripped-equal action lists have the same number of expensive
approved transactions. -/
theorem filter_length_of_strip (l l' : List CandidateAction)
    (h : l.map stripCtx = l'.map stripCtx) :
    (l.filter (fun a => a.action == "executeTransaction" && numGt a.params.value 1000)).length =
    (l'.filter (fun a => a.action == "executeTransaction" && numGt a.params.value 1000)).length := by
  have hp : ((fun a : CandidateAction =>
      a.action == "executeTransaction" && numGt a.params.value 1000) ∘ stripCtx) =
      (fun a : CandidateAction =>
        a.action == "executeTransaction" && numGt a.params.value 1000) :=
    funext fun a => rfl
  calc (l.filter (fun a => a.action == "executeTransaction" && numGt a.params.value 1000)).length
      = l.countP (fun a => a.action == "executeTransaction" && numGt a.params.value 1000) :=
        (List.countP_eq_length_filter _ _).symm
    _ = (l.map stripCtx).countP
          (fun a => a.action == "executeTransaction" && numGt a.params.value 1000) := by
        rw [List.countP_map, hp]
    _ = (l'.map stripCtx).countP
          (fun a => a.action == "executeTransaction" && numGt a.params.value 1000) := by rw [h]
    _ = l'.countP (fun a => a.action == "executeTransaction" && numGt a.params.value 1000) := by
        rw [List.countP_map, hp]
    _ = (l'.filter (fun a => a.action == "executeTransaction" && numGt a.params.value 1000)).length :=
        List.countP_eq_length_filter _ _

/-- Confidence depends only on the stripped views of the approved and
rejected lists and on the uncertainty reasons. -/
theorem calculateConfidence_strip (ap ap' rj rj' : List CandidateAction) (unc : List String)
    (h1 : ap.map stripCtx = ap'.map stripCtx) (h2 : rj.map stripCtx = rj'.map stripCtx) :
    Layers.calculateConfidence ap rj unc = Layers.calculateConfidence ap' rj' unc := by
  rw [calculateConfidence_closed_form, calculateConfidence_closed_form,
    filter_length_of_strip _ _ h1,
    show rj.length = rj'.length by rw [← List.length_map rj stripCtx, h2, List.length_map]]

/-- The critique loop on two stripped-equal action lists either throws
the same error or produces stripped-equal partitions with identical
limitations, uncertainties and explanation text. -/
theorem critiqueLoop_strip (l : List CandidateAction) : ∀ (l' : List CandidateAction),
    l.map stripCtx = l'.map stripCtx →
    (∃ e, Layers.critiqueLoop l = .error e ∧ Layers.critiqueLoop l' = .error e) ∨
    (∃ ap rj lim unc expl ap' rj',
      Layers.critiqueLoop l = .ok (ap, rj, lim, unc, expl) ∧
      Layers.critiqueLoop l' = .ok (ap', rj', lim, unc, expl) ∧
      ap.map stripCtx = ap'.map stripCtx ∧ rj.map stripCtx = rj'.map stripCtx) := by
  induction l with
  | nil =>
    intro l' h
    cases l' with
    | nil => right; exact ⟨[], [], [], [], "", [], [], rfl, rfl, rfl, rfl⟩
    | cons b l' => simp at h
  | cons a l ih =>
    intro l'' h
    cases l'' with
    | nil => simp at h
    | cons b l' =>
      simp only [List.map_cons, List.cons.injEq] at h
      obtain ⟨hab, htl⟩ := h
      have heth : Layers.categoricalImperative a = Layers.categoricalImperative b := by
        rw [← categoricalImperative_stripCtx a, hab, categoricalImperative_stripCtx b]
      have hepi : Layers.checkEpistemicBoundaries a = Layers.checkEpistemicBoundaries b := by
        rw [← checkEpistemicBoundaries_stripCtx a, hab, checkEpistemicBoundaries_stripCtx b]
      have hact : a.action = b.action := by
        rw [← action_stripCtx a, hab, action_stripCtx b]
      cases hc : Layers.categoricalImperative a with
      | error ec =>
        left
        refine ⟨ec, by simp [Layers.critiqueLoop, Bind.bind, Except.bind, hc], ?_⟩
        have hcb : Layers.categoricalImperative b = .error ec := heth ▸ hc
        simp [Layers.critiqueLoop, Bind.bind, Except.bind, hcb]
      | ok r =>
        have hcb : Layers.categoricalImperative b = .ok r := heth ▸ hc
        cases hb : Layers.checkEpistemicBoundaries a with
        | error eb =>
          left
          refine ⟨eb, by simp [Layers.critiqueLoop, Bind.bind, Except.bind, hc, hb], ?_⟩
          have hbb : Layers.checkEpistemicBoundaries b = .error eb := hepi ▸ hb
          simp [Layers.critiqueLoop, Bind.bind, Except.bind, hcb, hbb]
        | ok f =>
          have hbb : Layers.checkEpistemicBoundaries b = .ok f := hepi ▸ hb
          rcases ih l' htl with ⟨e, h1, h2⟩ |
            ⟨ap, rj, lim, unc, expl, ap', rj', h1, h2, hap, hrj⟩
          · left
            exact ⟨e, by simp [Layers.critiqueLoop, Bind.bind, Except.bind, hc, hb, h1],
              by simp [Layers.critiqueLoop, Bind.bind, Except.bind, hcb, hbb, h2]⟩
          · right
            cases hra : r.approved with
            | true =>
              refine ⟨a :: ap, rj, lim,
                (if f.uncertain then f.reason :: unc else unc),
                "\nApproved: " ++ a.action ++ " - " ++ r.reason ++ expl, b :: ap', rj',
                by simp [Layers.critiqueLoop, Bind.bind, Except.bind, hc, hb, h1, hra],
                ?_, by simp [hab, hap], hrj⟩
              rw [hact]
              simp [Layers.critiqueLoop, Bind.bind, Except.bind, hcb, hbb, h2, hra]
            | false =>
              refine ⟨ap, a :: rj, ("Ethical constraint: " ++ r.reason) :: lim,
                (if f.uncertain then f.reason :: unc else unc),
                "\nRejected: " ++ a.action ++ " - " ++ r.reason ++ expl, ap', b :: rj',
                by simp [Layers.critiqueLoop, Bind.bind, Except.bind, hc, hb, h1, hra],
                ?_, hap, by simp [hab, hrj]⟩
              rw [hact]
              simp [Layers.critiqueLoop, Bind.bind, Except.bind, hcb, hbb, h2, hra]

/-- Overwrite the timestamp field of a record. -/
def setTimestamp (x : JSObj) (ts : Option ℚ) : JSObj := { x with timestamp := ts }

/-- The Normalizer copies the raw value unchanged on non-matching
categories. -/
theorem structureData_other (d : JSObj) (ty : String) (ctx : Option Context) (t : ℚ)
    (h1 : ty ≠ "transaction") (h2 : ty ≠ "message") (h3 : ty ≠ "event")
    (h4 : ty ≠ "userInput") :
    Layers.structureData d ty ctx t = d := by
  unfold Layers.structureData
  split <;> simp_all

/-- Two runs of the Normalizer at different clock readings differ at
most in the timestamp field. -/
theorem structureData_time (d : JSObj) (ty : String) (ctx : Option Context) (t t' : ℚ) :
    Layers.structureData d ty ctx t' =
      setTimestamp (Layers.structureData d ty ctx t)
        (Layers.structureData d ty ctx t').timestamp := by
  by_cases h1 : ty = "transaction"
  · subst h1; rfl
  · by_cases h2 : ty = "message"
    · subst h2; rfl
    · by_cases h3 : ty = "event"
      · subst h3; rfl
      · by_cases h4 : ty = "userInput"
        · subst h4; rfl
        · rw [structureData_other d ty ctx t h1 h2 h3 h4,
            structureData_other d ty ctx t' h1 h2 h3 h4]
          rfl

/-- The Enricher commutes with a timestamp overwrite: both runs throw
the same error, or return records again equal up to the timestamp. -/
theorem understanding_time (cd : JSObj) (m m' : Metadata) (ts : Option ℚ)
    (hdt : m'.dataType = m.dataType) :
    (∃ e, Layers.understandingLayer ⟨cd, m⟩ = .error e ∧
          Layers.understandingLayer ⟨setTimestamp cd ts, m'⟩ = .error e) ∨
    (∃ v v', Layers.understandingLayer ⟨cd, m⟩ = .ok v ∧
      Layers.understandingLayer ⟨setTimestamp cd ts, m'⟩ = .ok v' ∧
      v'.categorizedData = setTimestamp v.categorizedData ts ∧
      v'.metadata.dataType = v.metadata.dataType) := by
  unfold Layers.understandingLayer
  dsimp only
  rw [hdt]
  by_cases h1 : (m.dataType == "transaction") = true
  · rw [if_pos h1, if_pos h1]
    right
    exact ⟨_, _, rfl, rfl, rfl, hdt⟩
  · rw [if_neg h1, if_neg h1]
    by_cases h2 : (m.dataType == "message") = true
    · rw [if_pos h2, if_pos h2]
      have hdi : Layers.detectIntent (setTimestamp cd ts) = Layers.detectIntent cd := rfl
      have hsa : Layers.analyzeSentiment (setTimestamp cd ts) = Layers.analyzeSentiment cd := rfl
      cases hint : Layers.detectIntent cd with
      | error e =>
        left
        exact ⟨e, by simp [Bind.bind, Except.bind, hint],
          by simp [Bind.bind, Except.bind, hdi, hint]⟩
      | ok iv =>
        cases hsen : Layers.analyzeSentiment cd with
        | error e =>
          left
          exact ⟨e, by simp [Bind.bind, Except.bind, hint, hsen],
            by simp [Bind.bind, Except.bind, hdi, hsa, hint, hsen]⟩
        | ok sv =>
          right
          refine ⟨⟨{ cd with intent := some iv, sentiment := some sv }, m⟩,
            ⟨{ setTimestamp cd ts with intent := some iv, sentiment := some sv }, m'⟩,
            ?_, ?_, rfl, hdt⟩
          · simp [Bind.bind, Except.bind, hint, hsen]
          · simp [Bind.bind, Except.bind, hdi, hsa, hint, hsen]
    · rw [if_neg h2, if_neg h2]
      by_cases h3 : (m.dataType == "event") = true
      · rw [if_pos h3, if_pos h3]
        right
        exact ⟨_, _, rfl, rfl, rfl, hdt⟩
      · rw [if_neg h3, if_neg h3]
        right
        exact ⟨⟨cd, m⟩, ⟨setTimestamp cd ts, m'⟩, rfl, rfl, rfl, hdt⟩

/-- The Proposer emits stripped-equal action lists and the same
reasoning text on records equal up to the timestamp. -/
theorem reason_time (cd : JSObj) (m m' : Metadata) (ts : Option ℚ)
    (hdt : m'.dataType = m.dataType) :
    (Layers.reasonLayer ⟨cd, m⟩).proposedActions.map stripCtx =
      (Layers.reasonLayer ⟨setTimestamp cd ts, m'⟩).proposedActions.map stripCtx ∧
    (Layers.reasonLayer ⟨cd, m⟩).reasoning =
      (Layers.reasonLayer ⟨setTimestamp cd ts, m'⟩).reasoning := by
  unfold Layers.reasonLayer
  dsimp only
  rw [hdt]
  by_cases h1 : (m.dataType == "transaction") = true
  · rw [if_pos h1, if_pos h1]
    exact ⟨rfl, rfl⟩
  · rw [if_neg h1, if_neg h1]
    by_cases h2 : (m.dataType == "message") = true
    · rw [if_pos h2, if_pos h2]
      refine ⟨?_, rfl⟩
      by_cases h3 : (cd.intent == some "question") = true
      · rw [if_pos h3,
          if_pos (show ((setTimestamp cd ts).intent == some "question") = true from h3)]
        rfl
      · rw [if_neg h3,
          if_neg (show ¬ ((setTimestamp cd ts).intent == some "question") = true from h3)]
        rfl
    · rw [if_neg h2, if_neg h2]
      by_cases h3 : (m.dataType == "event") = true
      · rw [if_pos h3, if_pos h3]
        exact ⟨rfl, rfl⟩
      · rw [if_neg h3, if_neg h3]
        exact ⟨rfl, rfl⟩

/-- The critique layer propagates a loop error unchanged. -/
theorem critiqueLayer_err (ro : ReasonOutput) (e : String)
    (h : Layers.critiqueLoop ro.proposedActions = .error e) :
    Layers.critiqueLayer ro = .error e := by
  unfold Layers.critiqueLayer
  rw [h]
  rfl

/-- A pipeline run whose understanding stage throws wraps the error. -/
theorem carPipeline_understanding_err (raw : Option JSObj) (ctx : Option Context) (now : ℚ)
    (u : UnderstandingOutput) (e : String)
    (hs : Layers.sensibilityLayer { rawData := raw, context := ctx } now = .ok u)
    (hu : Layers.understandingLayer u = .error e) :
    Pipeline.carPipeline raw ctx now = .error ("Pipeline failed: " ++ e) := by
  unfold Pipeline.carPipeline
  rw [hs]
  simp [Bind.bind, Except.bind, hu]

/-- A pipeline run whose critique stage throws wraps the error. -/
theorem carPipeline_critique_err (raw : Option JSObj) (ctx : Option Context) (now : ℚ)
    (u u' : UnderstandingOutput) (e : String)
    (hs : Layers.sensibilityLayer { rawData := raw, context := ctx } now = .ok u)
    (hu : Layers.understandingLayer u = .ok u')
    (hc : Layers.critiqueLayer (Layers.reasonLayer u') = .error e) :
    Pipeline.carPipeline raw ctx now = .error ("Pipeline failed: " ++ e) := by
  unfold Pipeline.carPipeline
  rw [hs]
  simp [Bind.bind, Except.bind, hu, hc]

/-- The Boundary Decider reads only confidence, limitations and
uncertainties. -/
theorem boundary_congr (o o' : CritiqueOutput) (θ : ℚ)
    (h1 : o.confidence = o'.confidence) (h2 : o.limitations = o'.limitations)
    (h3 : o.uncertainties = o'.uncertainties) :
    Pipeline.checkEpistemicBoundaries o θ = Pipeline.checkEpistemicBoundaries o' θ := by
  unfold Pipeline.checkEpistemicBoundaries
  rw [h1, h2, h3]

/-- The clock-independent view of a critique result: confidence,
limitations, uncertainties, the action names of the approved and
rejected partitions, and the explanation text. -/
def critiqueView (o : CritiqueOutput) :
    ℚ × List String × List String × List String × List String × String :=
  (o.confidence, o.limitations, o.uncertainties,
   o.approvedActions.map CandidateAction.action,
   o.rejectedActions.map CandidateAction.action, o.explanation)

/-- C9 counterexample: the Sensibility stage is not a pure function of
its input alone — two runs on the identical input at different clock
readings return different outputs (the metadata timestamp), and for a
message input even the final critique result differs across clock
readings (the proposed action's context parameter carries the
timestamp). -/
theorem sensibility_time_counterexample :
    Layers.sensibilityLayer { rawData := some c6Input, context := none } 0 ≠
      Layers.sensibilityLayer { rawData := some c6Input, context := none } 1 ∧
    Pipeline.carPipeline (some mInput) none 0 ≠
      Pipeline.carPipeline (some mInput) none 1 := by
  constructor
  · decide
  · decide

/-- C9 (amended): every stage is a deterministic function of its input
and the current clock reading, and only timestamp fields depend on the
clock: two full pipeline runs on the same input at different clock
readings yield the same confidence, limitations, uncertainties,
approved and rejected action names and explanation text (or the same
error), and the same boundary decision at every threshold. -/
theorem pipeline_clock_invariant (raw : Option JSObj) (ctx : Option Context) (t t' : ℚ) :
    (Pipeline.carPipeline raw ctx t).map critiqueView =
      (Pipeline.carPipeline raw ctx t').map critiqueView ∧
    ∀ θ : ℚ,
      (Pipeline.carPipeline raw ctx t).map
        (fun o => Pipeline.checkEpistemicBoundaries o θ) =
      (Pipeline.carPipeline raw ctx t').map
        (fun o => Pipeline.checkEpistemicBoundaries o θ) := by
  cases raw with
  | none => exact ⟨rfl, fun θ => rfl⟩
  | some d =>
    have hst := structureData_time d (Layers.detectDataTypeCore d) ctx t t'
    have hs : Layers.sensibilityLayer { rawData := some d, context := ctx } t =
        .ok ⟨Layers.structureData d (Layers.detectDataTypeCore d) ctx t,
             ⟨Layers.detectDataTypeCore d, Layers.detectSource d, t⟩⟩ := rfl
    have hs' : Layers.sensibilityLayer { rawData := some d, context := ctx } t' =
        .ok ⟨Layers.structureData d (Layers.detectDataTypeCore d) ctx t',
             ⟨Layers.detectDataTypeCore d, Layers.detectSource d, t'⟩⟩ := rfl
    rcases understanding_time (Layers.structureData d (Layers.detectDataTypeCore d) ctx t)
        ⟨Layers.detectDataTypeCore d, Layers.detectSource d, t⟩
        ⟨Layers.detectDataTypeCore d, Layers.detectSource d, t'⟩
        ((Layers.structureData d (Layers.detectDataTypeCore d) ctx t').timestamp) rfl with
      ⟨e, he1, he2⟩ | ⟨v, v', hv1, hv2, hvc, hvd⟩
    · rw [← hst] at he2
      rw [carPipeline_understanding_err (some d) ctx t _ e hs he1,
        carPipeline_understanding_err (some d) ctx t' _ e hs' he2]
      exact ⟨rfl, fun θ => rfl⟩
    · rw [← hst] at hv2
      have hv'' : v' = ⟨setTimestamp v.categorizedData
          ((Layers.structureData d (Layers.detectDataTypeCore d) ctx t').timestamp),
          v'.metadata⟩ := by
        conv_lhs => rw [show v' = (⟨v'.categorizedData, v'.metadata⟩ : UnderstandingOutput)
          from rfl]
        rw [hvc]
      obtain ⟨hracts, hreas⟩ := reason_time v.categorizedData v.metadata v'.metadata
        ((Layers.structureData d (Layers.detectDataTypeCore d) ctx t').timestamp) hvd
      rw [← hv''] at hracts hreas
      rcases critiqueLoop_strip (Layers.reasonLayer v).proposedActions
          (Layers.reasonLayer v').proposedActions hracts with
        ⟨e, h1, h2⟩ | ⟨ap, rj, lim, unc, expl, ap', rj', h1, h2, hap, hrj⟩
      · rw [carPipeline_critique_err (some d) ctx t _ v e hs hv1 (critiqueLayer_err _ e h1),
          carPipeline_critique_err (some d) ctx t' _ v' e hs' hv2 (critiqueLayer_err _ e h2)]
        exact ⟨rfl, fun θ => rfl⟩
      · have hconf := calculateConfidence_strip ap ap' rj rj' unc hap hrj
        have hc1 : Layers.critiqueLayer (Layers.reasonLayer v) =
            .ok { confidence := Layers.calculateConfidence ap rj unc
                  limitations := lim
                  uncertainties := unc
                  approvedActions := ap
                  rejectedActions := rj
                  explanation := (Layers.reasonLayer v).reasoning ++ "\n" ++ expl ++
                    "\nConfidence: " ++ toString (Layers.calculateConfidence ap rj unc) } := by
          unfold Layers.critiqueLayer
          rw [h1]
          rfl
        have hc2 : Layers.critiqueLayer (Layers.reasonLayer v') =
            .ok { confidence := Layers.calculateConfidence ap' rj' unc
                  limitations := lim
                  uncertainties := unc
                  approvedActions := ap'
                  rejectedActions := rj'
                  explanation := (Layers.reasonLayer v').reasoning ++ "\n" ++ expl ++
                    "\nConfidence: " ++ toString (Layers.calculateConfidence ap' rj' unc) } := by
          unfold Layers.critiqueLayer
          rw [h2]
          rfl
        rw [carPipeline_ok (some d) ctx t _ v _ hs hv1 hc1,
          carPipeline_ok (some d) ctx t' _ v' _ hs' hv2 hc2]
        constructor
        · simp only [Except.map]
          refine congrArg Except.ok ?_
          unfold critiqueView
          dsimp only
          rw [hconf, map_action_of_strip ap ap' hap, map_action_of_strip rj rj' hrj, hreas]
        · intro θ
          simp only [Except.map]
          refine congrArg Except.ok ?_
          exact boundary_congr _ _ θ hconf rfl rfl
